import Mathlib

/-!
RuntimeImageLoader: the format dispatcher and the file importer of
`RuntimeImageUtils.cpp`, the GIF reader of `RuntimeGifReader.cpp` and the
requests of `RuntimeImageReader.h`.

A shallow embedding of `FRuntimeImageUtils::IsImportResolutionValid`,
`FRuntimeImageUtils::ImportBufferAsImage`, `FRuntimeImageUtils::ImportFileAsImage`,
`FTransformImageParams::IsPercentSizeValid` and of `LoadGIF`, `LoadGIFFromBytes`,
`SubmitRequest`, `ProcessRequest` and `OnPostProcessRequest` of
`URuntimeGifReader`.

The engine services the dispatcher calls (the image wrappers, the global mip
count, `FMath::IsPowerOfTwo`) and the helpers that live in headers outside the
translated sources (`FTGAHelpers`, `FPNGHelpers`, `FRuntimeTiffLoadHelper`) are
fields of `FEngine`; the file manager is `FFileSystem`, the services of the GIF
reader are `FGifServices`; every theorem quantifies over them.  The dispatcher
records each call it makes to a codec in `Calls`, in program order, so that
statements about which codec was consulted, and about what happened before
what, can be made about the code.  A failed `check` is the result `none`.

The member functions of `URuntimeImageReader` are declared in
`RuntimeImageReader.h` and defined elsewhere; its request queue is modelled
from the specification, as an interleaving of atomic steps of the producers
and of the single worker.
-/

namespace FRuntimeImageUtils

/-! ## Engine enumerations -/

/-- Container formats handed to `IImageWrapperModule::CreateImageWrapper`. -/
inductive EImageFormat where
  | PNG
  | JPEG
  | BMP
  | EXR
  deriving DecidableEq, Repr

/-- Channel layouts an image wrapper reports and accepts in `GetRaw`. -/
inductive ERGBFormat where
  | Invalid
  | RGBA
  | BGRA
  | Gray
  | RGBAF
  | BGRE
  | GrayF
  deriving DecidableEq, Repr

/-- Texture source formats; the dispatcher names `TSF_Invalid`, `TSF_G8`,
`TSF_BGRA8`, `TSF_RGBA16` and `TSF_RGBA16F`. -/
inductive ETextureSourceFormat where
  | TSF_Invalid
  | TSF_G8
  | TSF_BGRA8
  | TSF_BGRE8
  | TSF_RGBA16
  | TSF_RGBA16F
  | TSF_G16
  deriving DecidableEq, Repr

/-- Compression settings; the dispatcher names `TC_Grayscale` and `TC_HDR`. -/
inductive TextureCompressionSettings where
  | TC_Default
  | TC_Normalmap
  | TC_Masks
  | TC_Grayscale
  | TC_Displacementmap
  | TC_VectorDisplacementmap
  | TC_HDR
  deriving DecidableEq, Repr

/-- Gamma spaces of the engine. -/
inductive EGammaSpace where
  | Linear
  | Pow22
  | sRGB
  deriving DecidableEq, Repr

/-! ## Data model -/

/-- The fields of `FRuntimeImageData` that `RuntimeImageUtils.cpp` reads or
writes.  `ModificationTime` is the tick count of the `FDateTime`. -/
structure FRuntimeImageData where
  SizeX : Int
  SizeY : Int
  TextureSourceFormat : ETextureSourceFormat
  RawData : List Nat
  SRGB : Bool
  GammaSpace : EGammaSpace
  CompressionSettings : TextureCompressionSettings
  ModificationTime : Int
  deriving DecidableEq, Repr

/-- Modelled from the spec: `FRuntimeImageData::Init2D` (declared in
`RuntimeImageData.h`, which is not among the translated sources).  The spec's
RawImageBuffer carries `width`, `height`, `pixelFormat` and `data`; `Init2D`
receives exactly these four and stores them, leaving the colour-space,
compression and modification-time fields as they were. -/
def Init2D (InSizeX InSizeY : Int) (InFormat : ETextureSourceFormat) (InData : List Nat)
    (Image : FRuntimeImageData) : FRuntimeImageData :=
  { Image with
    SizeX := InSizeX
    SizeY := InSizeY
    TextureSourceFormat := InFormat
    RawData := InData }

/-- An image wrapper after `SetCompressed` has accepted a buffer: the getters,
and `GetRaw`, which yields the raw bytes or fails. -/
structure FLoadedImageWrapper where
  GetWidth : Int
  GetHeight : Int
  GetBitDepth : Int
  GetFormat : ERGBFormat
  GetRaw : ERGBFormat → Int → Option (List Nat)

/-- An `IImageWrapper`: `SetCompressed (Buffer, Length)` either rejects the
buffer (`none`, the C++ `false`) or accepts it and exposes the getters. -/
structure IImageWrapper where
  SetCompressed : List Nat → Int → Option FLoadedImageWrapper

/-- The fields of `FTGAHelpers::FTGAFileHeader` the dispatcher reads. -/
structure FTGAFileHeader where
  ColorMapType : Nat
  ImageTypeCode : Nat
  Width : Nat
  Height : Nat
  BitsPerPixel : Nat
  deriving DecidableEq, Repr

/-- The state of `FRuntimeTiffLoadHelper` after `Load`. -/
structure FTiffLoaded where
  Width : Int
  Height : Int
  TextureSourceFormat : ETextureSourceFormat
  RawData : List Nat
  bSRGB : Bool
  CompressionSettings : TextureCompressionSettings
  GetBitDepth : Int

/-- The `FRuntimeTiffLoadHelper` of `Helpers/TIFFLoader.h`. -/
structure FRuntimeTiffLoadHelper where
  IsValid : Bool
  Load : List Nat → Int → Bool × FTiffLoaded

/-- Everything the dispatcher takes from outside `RuntimeImageUtils.cpp`.

* `GMaxTextureMipCount`, `IsPowerOfTwo` (`FMath::IsPowerOfTwo`) and
  `CreateImageWrapper` belong to the engine; a wrapper pointer that is not
  valid is `none`.
* `sizeofFTGAFileHeader` and `TGA` (the buffer seen through the header cast),
  `DecompressTGA`, `FillZeroAlphaPNGData` and `TiffLoaderHelper` are the helper
  headers of the plugin. `DecompressTGA` may write the image and the error. -/
structure FEngine where
  GMaxTextureMipCount : Int
  IsPowerOfTwo : Int → Bool
  CreateImageWrapper : EImageFormat → Option IImageWrapper
  sizeofFTGAFileHeader : Nat
  TGA : List Nat → FTGAFileHeader
  DecompressTGA : List Nat → FRuntimeImageData → String → Bool × FRuntimeImageData × String
  FillZeroAlphaPNGData : Int → Int → ETextureSourceFormat → List Nat → List Nat
  TiffLoaderHelper : FRuntimeTiffLoadHelper

/-! ## Resolution policy -/

/-- Two-complement wrap of an integer to `int32`. -/
def toInt32 (x : Int) : Int :=
  (x + 2 ^ 31) % 2 ^ 32 - 2 ^ 31

/-- The engine template `FMath::IsPowerOfTwo` at `int32`,
`(Value & (Value - 1)) == 0`: the conjunction of the two 32-bit patterns is
zero, the subtraction wrapping.  Engine code, not among the translated
sources. -/
def FMathIsPowerOfTwo (Value : Int) : Bool :=
  ((Value % 2 ^ 32).toNat &&& (toInt32 (Value - 1) % 2 ^ 32).toNat) == 0

/-- The integers that pass the engine's test: the powers of two, and also 0
and the least `int32`. -/
def IsPowerOfTwoZeroOrMin (Value : Int) : Prop :=
  (∃ k : Nat, Value = 2 ^ k) ∨ Value = 0 ∨ Value = -2 ^ 31

/-- The function `IsImportResolutionValid`.  `1 << (GMaxTextureMipCount - 1)`
is an `int32` shift. -/
def IsImportResolutionValid (Engine : FEngine) (Width Height : Int)
    (bAllowNonPowerOfTwo : Bool) : Bool :=
  let MAX_TEXTURE_SIZE : Int := 8192
  let MaximumSupportedResolution : Int :=
    toInt32 (1 * 2 ^ (Engine.GMaxTextureMipCount - 1).toNat)
  let bValid := true
  let bValid :=
    if Width > MaximumSupportedResolution || Height > MaximumSupportedResolution then false
    else bValid
  let bIsPowerOfTwo := Engine.IsPowerOfTwo Width && Engine.IsPowerOfTwo Height
  let bValid := if !bAllowNonPowerOfTwo && !bIsPowerOfTwo then false else bValid
  let bValid :=
    if Width > MAX_TEXTURE_SIZE || Height > MAX_TEXTURE_SIZE then false else bValid
  bValid

/-! ## The dispatcher -/

/-- The calls `ImportBufferAsImage` makes into a codec, as they are recorded. -/
inductive FCall where
  | SetCompressed (Format : EImageFormat)
  | TGAHeaderTest
  | GetRaw (Codec : EImageFormat) (Format : ERGBFormat) (BitDepth : Int)
  | DecompressTGA
  | Init2D (SizeX SizeY : Int) (Format : ETextureSourceFormat)
  | TiffLoad
  deriving DecidableEq, Repr

/-- The out-parameters of `ImportBufferAsImage` and the calls made so far. -/
structure FImportState where
  OutImage : FRuntimeImageData
  OutError : String
  Calls : List FCall
  deriving DecidableEq, Repr

/-- Appends a call to the record. -/
def FImportState.Call (s : FImportState) (c : FCall) : FImportState :=
  { s with Calls := s.Calls ++ [c] }

/-- What a block of the dispatcher does: it returns from the function, or
control goes on to the next block. -/
inductive FFlow where
  | Return (Value : Bool) (s : FImportState)
  | Continue (s : FImportState)

/-- The text of `FString::Printf` with the resolution message. -/
def ResolutionError (Width Height : Int) : String :=
  "Texture resolution is not supported: " ++ toString Width ++ " x " ++ toString Height

/-- The assignment `OutImage.GammaSpace = OutImage.SRGB ? sRGB : Linear`. -/
def SetGammaSpace (Image : FRuntimeImageData) : FRuntimeImageData :=
  { Image with GammaSpace := if Image.SRGB then EGammaSpace.sRGB else EGammaSpace.Linear }

/-- The local variables `TextureFormat`, `Format`, `BitDepth` of a block. -/
structure FSourceFormat where
  TextureFormat : ETextureSourceFormat
  Format : ERGBFormat
  BitDepth : Int
  deriving DecidableEq, Repr

/-- The selection of the texture source format in the PNG block (lines 78-113). -/
def SelectPNG (Format : ERGBFormat) (BitDepth : Int) : FSourceFormat :=
  if Format = ERGBFormat.Gray then
    if BitDepth ≤ 8 then ⟨.TSF_G8, .Gray, 8⟩
    else if BitDepth = 16 then ⟨.TSF_RGBA16, .RGBA, 16⟩
    else ⟨.TSF_Invalid, Format, BitDepth⟩
  else if Format = ERGBFormat.RGBA ∨ Format = ERGBFormat.BGRA then
    if BitDepth ≤ 8 then ⟨.TSF_BGRA8, .BGRA, 8⟩
    else if BitDepth = 16 then ⟨.TSF_RGBA16, .RGBA, 16⟩
    else ⟨.TSF_Invalid, Format, BitDepth⟩
  else ⟨.TSF_Invalid, Format, BitDepth⟩

/-- The selection of the texture source format in the JPEG block (lines 158-180). -/
def SelectJPEG (Format : ERGBFormat) (BitDepth : Int) : FSourceFormat :=
  if Format = ERGBFormat.Gray then
    if BitDepth ≤ 8 then ⟨.TSF_G8, .Gray, 8⟩
    else ⟨.TSF_Invalid, Format, BitDepth⟩
  else if Format = ERGBFormat.RGBA then
    if BitDepth ≤ 8 then ⟨.TSF_BGRA8, .BGRA, 8⟩
    else ⟨.TSF_Invalid, Format, BitDepth⟩
  else ⟨.TSF_Invalid, Format, BitDepth⟩

/-- The selection of the texture source format in the EXR block (lines 304-313). -/
def SelectEXR (Format : ERGBFormat) (BitDepth : Int) : FSourceFormat :=
  if Format = ERGBFormat.RGBA ∧ BitDepth = 16 then ⟨.TSF_RGBA16F, .BGRA, BitDepth⟩
  else ⟨.TSF_Invalid, Format, BitDepth⟩

/-- The body of the PNG block once `SetCompressed` has accepted the buffer
(lines 72-141). -/
def DecodePNG (Engine : FEngine) (Png : FLoadedImageWrapper) (s : FImportState) : FFlow :=
  if !IsImportResolutionValid Engine Png.GetWidth Png.GetHeight true then
    .Return false { s with OutError := ResolutionError Png.GetWidth Png.GetHeight }
  else
    let Sel := SelectPNG Png.GetFormat Png.GetBitDepth
    if Sel.BitDepth > 16 then
      .Return false
        { s with OutError := "Only 8 and 16 bit depth PNG images are currently supported." }
    else
      let s := s.Call (.GetRaw .PNG Sel.Format Sel.BitDepth)
      match Png.GetRaw Sel.Format Sel.BitDepth with
      | some RawPNG =>
        let s := s.Call (.Init2D Png.GetWidth Png.GetHeight Sel.TextureFormat)
        let Image := Init2D Png.GetWidth Png.GetHeight Sel.TextureFormat RawPNG s.OutImage
        let Image := { Image with SRGB := decide (Sel.BitDepth < 16) }
        let Image := SetGammaSpace Image
        let Image :=
          { Image with
            RawData :=
              Engine.FillZeroAlphaPNGData Image.SizeX Image.SizeY Image.TextureSourceFormat
                Image.RawData }
        .Return true { s with OutImage := Image }
      | none =>
        .Return false
          { s with OutError := "Failed to decode PNG. Bit depth: " ++ toString Sel.BitDepth }

/-- The PNG block (lines 69-142). -/
def ImportPNG (Engine : FEngine) (Buffer : List Nat) (Length : Int) (s : FImportState) : FFlow :=
  match Engine.CreateImageWrapper .PNG with
  | none => .Continue s
  | some PngImageWrapper =>
    let s := s.Call (.SetCompressed .PNG)
    match PngImageWrapper.SetCompressed Buffer Length with
    | none => .Continue s
    | some Png => DecodePNG Engine Png s

/-- The body of the JPEG block once `SetCompressed` has accepted the buffer
(lines 152-206). -/
def DecodeJPEG (Engine : FEngine) (Jpeg : FLoadedImageWrapper) (s : FImportState) : FFlow :=
  if !IsImportResolutionValid Engine Jpeg.GetWidth Jpeg.GetHeight true then
    .Return false { s with OutError := ResolutionError Jpeg.GetWidth Jpeg.GetHeight }
  else
    let Sel := SelectJPEG Jpeg.GetFormat Jpeg.GetBitDepth
    if Sel.TextureFormat = .TSF_Invalid then
      .Return false
        { s with
          OutError :=
            "JPEG file contains data in an unsupported format. Bit depth: " ++
              toString Sel.BitDepth }
    else
      let s := s.Call (.GetRaw .JPEG Sel.Format Sel.BitDepth)
      match Jpeg.GetRaw Sel.Format Sel.BitDepth with
      | some RawJPEG =>
        let s := s.Call (.Init2D Jpeg.GetWidth Jpeg.GetHeight Sel.TextureFormat)
        let Image := Init2D Jpeg.GetWidth Jpeg.GetHeight Sel.TextureFormat RawJPEG s.OutImage
        let Image := { Image with SRGB := true }
        let Image := SetGammaSpace Image
        .Return true { s with OutImage := Image }
      | none =>
        .Return false { s with OutError := "Failed to decode JPEG. Please contact devs" }

/-- The JPEG block (lines 149-207). -/
def ImportJPEG (Engine : FEngine) (Buffer : List Nat) (Length : Int) (s : FImportState) : FFlow :=
  match Engine.CreateImageWrapper .JPEG with
  | none => .Continue s
  | some JpegImageWrapper =>
    let s := s.Call (.SetCompressed .JPEG)
    match JpegImageWrapper.SetCompressed Buffer Length with
    | none => .Continue s
    | some Jpeg => DecodeJPEG Engine Jpeg s

/-- The body of the BMP block once `SetCompressed` has accepted the buffer
(lines 215-242). -/
def DecodeBMP (Engine : FEngine) (Bmp : FLoadedImageWrapper) (s : FImportState) : FFlow :=
  if !IsImportResolutionValid Engine Bmp.GetWidth Bmp.GetHeight true then
    .Return false { s with OutError := ResolutionError Bmp.GetWidth Bmp.GetHeight }
  else
    let s := s.Call (.GetRaw .BMP Bmp.GetFormat Bmp.GetBitDepth)
    match Bmp.GetRaw Bmp.GetFormat Bmp.GetBitDepth with
    | some RawBMP =>
      let s := s.Call (.Init2D Bmp.GetWidth Bmp.GetHeight .TSF_BGRA8)
      let Image := Init2D Bmp.GetWidth Bmp.GetHeight .TSF_BGRA8 RawBMP s.OutImage
      let Image := { Image with SRGB := true }
      let Image := SetGammaSpace Image
      .Return true { s with OutImage := Image }
    | none =>
      .Return false
        { s with OutError := "Failed to decode BMP. Bit depth: " ++ toString Bmp.GetBitDepth }

/-- The BMP block (lines 212-243). -/
def ImportBMP (Engine : FEngine) (Buffer : List Nat) (Length : Int) (s : FImportState) : FFlow :=
  match Engine.CreateImageWrapper .BMP with
  | none => .Continue s
  | some BmpImageWrapper =>
    let s := s.Call (.SetCompressed .BMP)
    match BmpImageWrapper.SetCompressed Buffer Length with
    | none => .Continue s
    | some Bmp => DecodeBMP Engine Bmp s

/-- The header test of the TGA block (lines 250-256).  `Length` is an `int32`
compared with a `sizeof`, so it is converted to the unsigned 64-bit type
first. -/
def TGAHeaderTest (Engine : FEngine) (Buffer : List Nat) (Length : Int) : Bool :=
  let TGA := Engine.TGA Buffer
  decide (Length % 2 ^ 64 ≥ (Engine.sizeofFTGAFileHeader : Int)) &&
    ((TGA.ColorMapType == 0 && TGA.ImageTypeCode == 2) ||
      (TGA.ColorMapType == 0 && TGA.ImageTypeCode == 3) ||
      (TGA.ColorMapType == 0 && TGA.ImageTypeCode == 10) ||
      (TGA.ColorMapType == 1 && TGA.ImageTypeCode == 1 && TGA.BitsPerPixel == 8))

/-- The body of the TGA block once the header test has passed (lines 258-281).
After a successful `DecompressTGA` there is no `return`: control leaves the
block and goes on to the EXR block. -/
def DecodeTGA (Engine : FEngine) (Buffer : List Nat) (s : FImportState) : FFlow :=
  let TGA := Engine.TGA Buffer
  if !IsImportResolutionValid Engine TGA.Width TGA.Height true then
    .Return false { s with OutError := ResolutionError TGA.Width TGA.Height }
  else
    let s := s.Call .DecompressTGA
    let r := Engine.DecompressTGA Buffer s.OutImage s.OutError
    let s := { s with OutImage := r.2.1, OutError := r.2.2 }
    if r.1 then
      let Image :=
        if s.OutImage.CompressionSettings = .TC_Grayscale ∧ TGA.ImageTypeCode = 3 then
          { s.OutImage with SRGB := false }
        else s.OutImage
      let Image := SetGammaSpace Image
      .Continue { s with OutImage := Image }
    else
      .Return false { s with OutError := "Failed to decompress TGA. Please contact devs" }

/-- The TGA block (lines 249-282). -/
def ImportTGA (Engine : FEngine) (Buffer : List Nat) (Length : Int) (s : FImportState) : FFlow :=
  let s := s.Call .TGAHeaderTest
  if TGAHeaderTest Engine Buffer Length then DecodeTGA Engine Buffer s
  else .Continue s

/-- The body of the OpenEXR block once `SetCompressed` has accepted the buffer
(lines 296-341).  The resolution check returns without writing `OutError`. -/
def DecodeEXR (Engine : FEngine) (Exr : FLoadedImageWrapper) (s : FImportState) : FFlow :=
  let Width := Exr.GetWidth
  let Height := Exr.GetHeight
  if !IsImportResolutionValid Engine Width Height true then
    .Return false s
  else
    let Sel := SelectEXR Exr.GetFormat Exr.GetBitDepth
    if Sel.TextureFormat = .TSF_Invalid then
      .Return false { s with OutError := "EXR file contains data in an unsupported format." }
    else
      let s := s.Call (.GetRaw .EXR Sel.Format Sel.BitDepth)
      match Exr.GetRaw Sel.Format Sel.BitDepth with
      | some RawExr =>
        let s := s.Call (.Init2D Width Height Sel.TextureFormat)
        let Image := Init2D Width Height Sel.TextureFormat RawExr s.OutImage
        let Image := { Image with SRGB := false }
        let Image := SetGammaSpace Image
        let Image := { Image with CompressionSettings := .TC_HDR }
        .Return true { s with OutImage := Image }
      | none =>
        .Return false
          { s with OutError := "Failed to decode EXR. Bit depth: " ++ toString Sel.BitDepth }

/-- The OpenEXR block (lines 293-342). -/
def ImportEXR (Engine : FEngine) (Buffer : List Nat) (Length : Int) (s : FImportState) : FFlow :=
  match Engine.CreateImageWrapper .EXR with
  | none => .Continue s
  | some ExrImageWrapper =>
    let s := s.Call (.SetCompressed .EXR)
    match ExrImageWrapper.SetCompressed Buffer Length with
    | none => .Continue s
    | some Exr => DecodeEXR Engine Exr s

/-- The TIFF block (lines 344-369).  The braces of the function balance only
when `WITH_FREEIMAGE_LIB` is set, so the block is part of the function; a
loader that is not valid skips it. -/
def ImportTIFF (Engine : FEngine) (Buffer : List Nat) (Length : Int) (s : FImportState) : FFlow :=
  let TiffLoaderHelper := Engine.TiffLoaderHelper
  if TiffLoaderHelper.IsValid then
    let s := s.Call .TiffLoad
    let r := TiffLoaderHelper.Load Buffer Length
    let Tiff := r.2
    if r.1 then
      let s := s.Call (.Init2D Tiff.Width Tiff.Height Tiff.TextureSourceFormat)
      let Image := Init2D Tiff.Width Tiff.Height Tiff.TextureSourceFormat Tiff.RawData s.OutImage
      let Image := { Image with SRGB := Tiff.bSRGB }
      let Image := SetGammaSpace Image
      let Image := { Image with CompressionSettings := Tiff.CompressionSettings }
      .Return true { s with OutImage := Image }
    else
      .Return false
        { s with
          OutError := "Failed to decode TIFF. Bits per pixel: " ++ toString Tiff.GetBitDepth }
  else .Continue s

/-- What `ImportBufferAsImage` leaves behind: the returned `bool`, the two
out-parameters and the record of calls. -/
structure FImportResult where
  Value : Bool
  OutImage : FRuntimeImageData
  OutError : String
  Calls : List FCall
  deriving DecidableEq, Repr

/-- Packs a returned value and the final state. -/
def FImportResult.Make (Value : Bool) (s : FImportState) : FImportResult :=
  ⟨Value, s.OutImage, s.OutError, s.Calls⟩

/-- Two blocks in sequence: the second one runs only when the first has not
returned. -/
def FFlow.Then (First : FFlow) (Next : FImportState → FFlow) : FFlow :=
  match First with
  | .Return Value s => .Return Value s
  | .Continue s => Next s

/-- The end of the function: a block has returned, or control reaches the final
`return true` (line 371). -/
def FFlow.Result : FFlow → FImportResult
  | .Return Value s => .Make Value s
  | .Continue s => .Make true s

/-- The function `ImportBufferAsImage` (lines 59-372): the blocks in program
order, and `return true` when control reaches the end. -/
def ImportBufferAsImage (Engine : FEngine) (Buffer : List Nat) (Length : Int)
    (OutImage : FRuntimeImageData) (OutError : String) : FImportResult :=
  ((ImportPNG Engine Buffer Length ⟨OutImage, OutError, []⟩).Then fun s =>
    (ImportJPEG Engine Buffer Length s).Then fun s =>
    (ImportBMP Engine Buffer Length s).Then fun s =>
    (ImportTGA Engine Buffer Length s).Then fun s =>
    (ImportEXR Engine Buffer Length s).Then fun s =>
    ImportTIFF Engine Buffer Length s).Result

/-! ## Vocabulary of the specification -/

/-- The codecs of the dispatcher. -/
inductive ECodec where
  | PNG
  | JPEG
  | BMP
  | TGA
  | EXR
  | TIFF
  deriving DecidableEq, Repr

/-- The position of a codec in the priority order PNG, JPEG, BMP, TGA, EXR, TIFF. -/
def ECodec.Rank : ECodec → Nat
  | .PNG => 0
  | .JPEG => 1
  | .BMP => 2
  | .TGA => 3
  | .EXR => 4
  | .TIFF => 5

/-- The header sniff of a wrapper-based codec: the wrapper exists and its
`SetCompressed` accepts the buffer. -/
def Sniff (Engine : FEngine) (Format : EImageFormat) (Buffer : List Nat) (Length : Int) :
    Option FLoadedImageWrapper :=
  match Engine.CreateImageWrapper Format with
  | none => none
  | some Wrapper => Wrapper.SetCompressed Buffer Length

/-- The calls a wrapper-based block records when it does not claim the buffer:
`SetCompressed` is called exactly when the wrapper pointer is valid. -/
def SniffCalls (Engine : FEngine) (Format : EImageFormat) : List FCall :=
  match Engine.CreateImageWrapper Format with
  | none => []
  | some _ => [.SetCompressed Format]

/-- The wrapper state a codec works with, for the four wrapper-based codecs. -/
def Header (Engine : FEngine) (Codec : ECodec) (Buffer : List Nat) (Length : Int) :
    Option FLoadedImageWrapper :=
  match Codec with
  | .PNG => Sniff Engine .PNG Buffer Length
  | .JPEG => Sniff Engine .JPEG Buffer Length
  | .BMP => Sniff Engine .BMP Buffer Length
  | .EXR => Sniff Engine .EXR Buffer Length
  | .TGA => none
  | .TIFF => none

/-- A codec claims the buffer: its header sniff succeeds (for TGA the header
test, for TIFF a valid loader whose `Load` succeeds). -/
def Claims (Engine : FEngine) (Codec : ECodec) (Buffer : List Nat) (Length : Int) : Bool :=
  match Codec with
  | .TGA => TGAHeaderTest Engine Buffer Length
  | .TIFF => Engine.TiffLoaderHelper.IsValid && (Engine.TiffLoaderHelper.Load Buffer Length).1
  | c => (Header Engine c Buffer Length).isSome

/-- The codec is the first one in the priority order that claims the buffer. -/
def FirstClaimant (Engine : FEngine) (Codec : ECodec) (Buffer : List Nat) (Length : Int) : Prop :=
  Claims Engine Codec Buffer Length = true ∧
    ∀ c : ECodec, c.Rank < Codec.Rank → Claims Engine c Buffer Length = false

/-- The width and height a codec sniffs from the buffer. -/
def SniffedSize (Engine : FEngine) (Codec : ECodec) (Buffer : List Nat) (Length : Int) :
    Int × Int :=
  match Codec with
  | .TGA => ((Engine.TGA Buffer).Width, (Engine.TGA Buffer).Height)
  | .TIFF =>
    ((Engine.TiffLoaderHelper.Load Buffer Length).2.Width,
      (Engine.TiffLoaderHelper.Load Buffer Length).2.Height)
  | c =>
    match Header Engine c Buffer Length with
    | some Loaded => (Loaded.GetWidth, Loaded.GetHeight)
    | none => (0, 0)

/-- The sniffed size passes the resolution policy as the dispatcher calls it
(non-power-of-two allowed). -/
def ResolutionPasses (Engine : FEngine) (Codec : ECodec) (Buffer : List Nat) (Length : Int) :
    Bool :=
  IsImportResolutionValid Engine (SniffedSize Engine Codec Buffer Length).1
    (SniffedSize Engine Codec Buffer Length).2 true

/-- The layout and depth a wrapper-based block passes to `GetRaw`, with the
texture format it passes to `Init2D`. -/
def Requested (Codec : ECodec) (Loaded : FLoadedImageWrapper) : FSourceFormat :=
  match Codec with
  | .PNG => SelectPNG Loaded.GetFormat Loaded.GetBitDepth
  | .JPEG => SelectJPEG Loaded.GetFormat Loaded.GetBitDepth
  | .EXR => SelectEXR Loaded.GetFormat Loaded.GetBitDepth
  | _ => ⟨.TSF_BGRA8, Loaded.GetFormat, Loaded.GetBitDepth⟩

/-- Pixel extraction fails: `GetRaw`, asked for the layout and depth the block
requests, returns false; for TGA, `DecompressTGA` returns false. -/
def ExtractionFails (Engine : FEngine) (Codec : ECodec) (Buffer : List Nat) (Length : Int)
    (OutImage : FRuntimeImageData) (OutError : String) : Bool :=
  match Codec with
  | .TGA => !(Engine.DecompressTGA Buffer OutImage OutError).1
  | .TIFF => false
  | c =>
    match Header Engine c Buffer Length with
    | some Loaded => (Loaded.GetRaw (Requested c Loaded).Format (Requested c Loaded).BitDepth).isNone
    | none => false

/-- The call is a call of `Init2D` made by the dispatcher. -/
def FCall.IsInit2D : FCall → Bool
  | .Init2D _ _ _ => true
  | _ => false

/-- The call is a pixel-copy step: `GetRaw`, `DecompressTGA` or `Init2D`. -/
def FCall.IsPixelCopy : FCall → Bool
  | .GetRaw _ _ _ => true
  | .DecompressTGA => true
  | .Init2D _ _ _ => true
  | _ => false

/-- The call is a `GetRaw`. -/
def FCall.IsGetRaw : FCall → Bool
  | .GetRaw _ _ _ => true
  | _ => false

/-- The message contains the decimal text of the number. -/
def Names (Message : String) (Value : Int) : Prop :=
  (toString Value).data <:+: Message.data

/-! ## Example engines -/

/-- An image as a caller hands it in: nothing decoded yet. -/
def BlankImage : FRuntimeImageData :=
  ⟨0, 0, .TSF_Invalid, [], true, .sRGB, .TC_Default, 0⟩

/-- The packed little-endian layout of a TGA file header (18 bytes). -/
def ParseTGAHeader (Buffer : List Nat) : FTGAFileHeader :=
  { ColorMapType := Buffer.getD 1 0
    ImageTypeCode := Buffer.getD 2 0
    Width := Buffer.getD 12 0 + 256 * Buffer.getD 13 0
    Height := Buffer.getD 14 0 + 256 * Buffer.getD 15 0
    BitsPerPixel := Buffer.getD 16 0 }

/-- A wrapper that rejects every buffer. -/
def RejectingWrapper : IImageWrapper :=
  ⟨fun _ _ => none⟩

/-- A wrapper that accepts every buffer and reports the given header. -/
def AcceptingWrapper (Loaded : FLoadedImageWrapper) : IImageWrapper :=
  ⟨fun _ _ => some Loaded⟩

/-- A TIFF loader that is not available. -/
def NoTiff : FRuntimeTiffLoadHelper :=
  ⟨false, fun _ _ => (false, ⟨0, 0, .TSF_Invalid, [], false, .TC_Default, 0⟩)⟩

/-- A TIFF loader that is available and rejects every buffer. -/
def RejectingTiff : FRuntimeTiffLoadHelper :=
  ⟨true, fun _ _ => (false, ⟨0, 0, .TSF_Invalid, [], false, .TC_Default, 0⟩)⟩

/-- A TGA decompressor that fails and leaves its arguments alone. -/
def FailingDecompressTGA (_ : List Nat) (Image : FRuntimeImageData) (Error : String) :
    Bool × FRuntimeImageData × String :=
  (false, Image, Error)

/-- An example engine: a mip count of 15, the engine's power-of-two test, the
four wrappers as given, and the TGA header read from the bytes. -/
def ExampleEngine (Wrappers : EImageFormat → Option IImageWrapper)
    (DecompressTGA : List Nat → FRuntimeImageData → String → Bool × FRuntimeImageData × String)
    (Tiff : FRuntimeTiffLoadHelper) : FEngine :=
  { GMaxTextureMipCount := 15
    IsPowerOfTwo := FMathIsPowerOfTwo
    CreateImageWrapper := Wrappers
    sizeofFTGAFileHeader := 18
    TGA := ParseTGAHeader
    DecompressTGA := DecompressTGA
    FillZeroAlphaPNGData := fun _ _ _ Data => Data
    TiffLoaderHelper := Tiff }

/-- The header of an uncompressed true-colour TGA of 4 x 4 pixels, 32 bits. -/
def TrueColorTGA : List Nat :=
  [0, 0, 2, 0, 0, 0, 0, 0, 0, 0, 0, 0, 4, 0, 4, 0, 32, 0]

/-- A TGA decompressor that succeeds with a 4 x 4 BGRA image. -/
def TrueColorDecompressTGA (_ : List Nat) (Image : FRuntimeImageData) (Error : String) :
    Bool × FRuntimeImageData × String :=
  (true, Init2D 4 4 .TSF_BGRA8 (List.replicate 64 255) Image, Error)

/-- An engine in which every wrapper rejects, the TGA decompressor works and the
TIFF loader is available. -/
def TGAEngine : FEngine :=
  ExampleEngine (fun _ => some RejectingWrapper) TrueColorDecompressTGA RejectingTiff

/-- An engine in which no codec claims anything and the TIFF loader is not
available. -/
def BareEngine : FEngine :=
  ExampleEngine (fun _ => some RejectingWrapper) FailingDecompressTGA NoTiff

/-- The codec a wrapper format belongs to. -/
def EImageFormat.Codec : EImageFormat → ECodec
  | .PNG => .PNG
  | .JPEG => .JPEG
  | .BMP => .BMP
  | .EXR => .EXR

instance (Engine : FEngine) (Codec : ECodec) (Buffer : List Nat) (Length : Int) :
    Decidable (FirstClaimant Engine Codec Buffer Length) :=
  decidable_of_iff
    (Claims Engine Codec Buffer Length = true ∧
      ∀ c ∈ [ECodec.PNG, .JPEG, .BMP, .TGA, .EXR, .TIFF],
        c.Rank < Codec.Rank → Claims Engine c Buffer Length = false)
    (by
      unfold FirstClaimant
      constructor
      · rintro ⟨h, hall⟩
        exact ⟨h, fun c hc => hall c (by cases c <;> simp) hc⟩
      · rintro ⟨h, hall⟩
        exact ⟨h, fun c _ hc => hall c hc⟩)

/-- A row of the table of pixel formats: the pixel format and sRGB flag of the
result, and the layout and bit depth in which the raw data is requested. -/
structure FTableRow where
  PixelFormat : ETextureSourceFormat
  bSRGB : Bool
  Layout : ERGBFormat
  BitDepth : Int
  deriving DecidableEq, Repr

/-- The table of pixel formats for PNG, JPEG and BMP, by the layout and bit
depth the wrapper reports: the pixel format and sRGB flag of the result, and
the layout and bit depth of that pixel format, in which the raw data is
requested.  Where the table has no row the result is `none`. -/
def PixelFormatTable (Format : EImageFormat) (Layout : ERGBFormat) (BitDepth : Int) :
    Option FTableRow :=
  match Format with
  | .PNG =>
    if Layout = .Gray ∧ BitDepth ≤ 8 then some ⟨.TSF_G8, true, .Gray, 8⟩
    else if Layout = .Gray ∧ BitDepth = 16 then some ⟨.TSF_RGBA16, false, .RGBA, 16⟩
    else if (Layout = .RGBA ∨ Layout = .BGRA) ∧ BitDepth ≤ 8 then
      some ⟨.TSF_BGRA8, true, .BGRA, 8⟩
    else if (Layout = .RGBA ∨ Layout = .BGRA) ∧ BitDepth = 16 then
      some ⟨.TSF_RGBA16, false, .RGBA, 16⟩
    else none
  | .JPEG =>
    if Layout = .Gray ∧ BitDepth ≤ 8 then some ⟨.TSF_G8, true, .Gray, 8⟩
    else if Layout = .RGBA ∧ BitDepth ≤ 8 then some ⟨.TSF_BGRA8, true, .BGRA, 8⟩
    else none
  | .BMP => some ⟨.TSF_BGRA8, true, .BGRA, 8⟩
  | .EXR => none

/-- What a wrapper reports of a buffer of its own format: a PNG header has a bit
depth of 1, 2, 4, 8 or 16 and the PNG wrapper reports Gray, RGBA or BGRA; the
BMP wrapper decodes every bitmap to BGRA at 8 bits and reports that.  Nothing
is asked of the JPEG and EXR wrappers. -/
def ReportsOwnFormat (Format : EImageFormat) (Loaded : FLoadedImageWrapper) : Prop :=
  match Format with
  | .PNG =>
    (Loaded.GetFormat = .Gray ∨ Loaded.GetFormat = .RGBA ∨ Loaded.GetFormat = .BGRA) ∧
      (Loaded.GetBitDepth = 1 ∨ Loaded.GetBitDepth = 2 ∨ Loaded.GetBitDepth = 4 ∨
        Loaded.GetBitDepth = 8 ∨ Loaded.GetBitDepth = 16)
  | .BMP => Loaded.GetFormat = .BGRA ∧ Loaded.GetBitDepth = 8
  | .JPEG => True
  | .EXR => True

instance (Format : EImageFormat) (Loaded : FLoadedImageWrapper) :
    Decidable (ReportsOwnFormat Format Loaded) := by
  cases Format <;> unfold ReportsOwnFormat <;> infer_instance

/-- The reported layout and depth are ones the block rejects before it
extracts pixels: a PNG deeper than 16 bits, a JPEG that is not Gray or RGBA at
8 bits or less, an EXR that is not RGBA at 16 bits. -/
def Unsupported (Format : EImageFormat) (Layout : ERGBFormat) (BitDepth : Int) : Bool :=
  match Format with
  | .PNG => decide (BitDepth > 16)
  | .JPEG => !(decide (Layout = .Gray ∨ Layout = .RGBA) && decide (BitDepth ≤ 8))
  | .EXR => !(decide (Layout = .RGBA) && decide (BitDepth = 16))
  | .BMP => false

/-- The message each block writes when it rejects the layout or depth. -/
def UnsupportedMessage (Format : EImageFormat) (BitDepth : Int) : String :=
  match Format with
  | .PNG => "Only 8 and 16 bit depth PNG images are currently supported."
  | .JPEG => "JPEG file contains data in an unsupported format. Bit depth: " ++ toString BitDepth
  | .EXR => "EXR file contains data in an unsupported format."
  | .BMP => ""

/-- A loaded wrapper reporting the given header whose `GetRaw` always fails. -/
def CorruptImage (Width Height BitDepth : Int) (Format : ERGBFormat) : FLoadedImageWrapper :=
  ⟨Width, Height, BitDepth, Format, fun _ _ => none⟩

/-- A loaded wrapper reporting the given header whose `GetRaw` always yields
the given bytes. -/
def SoundImage (Width Height BitDepth : Int) (Format : ERGBFormat) (Raw : List Nat) :
    FLoadedImageWrapper :=
  ⟨Width, Height, BitDepth, Format, fun _ _ => some Raw⟩

/-- Wrappers of which only the one for the given format accepts buffers. -/
def OnlyWrapper (Format : EImageFormat) (Loaded : FLoadedImageWrapper) :
    EImageFormat → Option IImageWrapper :=
  fun f => if f = Format then some (AcceptingWrapper Loaded) else some RejectingWrapper

/-- An engine whose only claiming codec is the given wrapper; no TIFF loader. -/
def WrapperEngine (Format : EImageFormat) (Loaded : FLoadedImageWrapper) : FEngine :=
  ExampleEngine (OnlyWrapper Format Loaded) FailingDecompressTGA NoTiff

/-- The header of an uncompressed grayscale TGA of 4 x 4 pixels, 8 bits. -/
def GrayscaleTGA : List Nat :=
  [0, 0, 3, 0, 0, 0, 0, 0, 0, 0, 0, 0, 4, 0, 4, 0, 8, 0]

/-- A TGA decompressor that succeeds with a 4 x 4 gray image and leaves the
sRGB flag set and the given compression setting. -/
def GrayscaleDecompressTGA (Compression : TextureCompressionSettings) (_ : List Nat)
    (Image : FRuntimeImageData) (Error : String) : Bool × FRuntimeImageData × String :=
  (true,
    { Init2D 4 4 .TSF_G8 (List.replicate 16 128) Image with
      SRGB := true
      CompressionSettings := Compression },
    Error)

/-- An engine in which only the TGA block claims, with the grayscale
decompressor; no TIFF loader. -/
def GrayscaleTGAEngine (Compression : TextureCompressionSettings) : FEngine :=
  ExampleEngine (fun _ => some RejectingWrapper) (GrayscaleDecompressTGA Compression) NoTiff

/-- The gamma space of the image is the one derived from its sRGB flag. -/
def GammaFromSRGB (Image : FRuntimeImageData) : Prop :=
  Image.GammaSpace = if Image.SRGB then EGammaSpace.sRGB else EGammaSpace.Linear

instance (Image : FRuntimeImageData) : Decidable (GammaFromSRGB Image) := by
  unfold GammaFromSRGB
  infer_instance

/-- The codec a recorded call consults; `Init2D` belongs to the image. -/
def FCall.Consults : FCall → Option ECodec
  | .SetCompressed Format => some Format.Codec
  | .TGAHeaderTest => some .TGA
  | .GetRaw Format _ _ => some Format.Codec
  | .DecompressTGA => some .TGA
  | .Init2D _ _ _ => none
  | .TiffLoad => some .TIFF

/-! ## Import from a file -/

/-- The two time stamps of `FFileStatData` the importer reads, as tick counts. -/
structure FFileStatData where
  CreationTime : Int
  ModificationTime : Int
  deriving DecidableEq, Repr

/-- The services of `IFileManager` and `FFileHelper` that `ImportFileAsImage`
calls.  `LoadFileToArray` yields the bytes of the file or fails. -/
structure FFileSystem where
  FileExists : String → Bool
  FileSize : String → Int
  LoadFileToArray : String → Option (List Nat)
  GetStatData : String → FFileStatData

/-- The calls `ImportFileAsImage` makes, as they are recorded; the call of
`ImportBufferAsImage` is recorded with the buffer and the length passed. -/
inductive FFileCall where
  | FileExists
  | FileSize
  | LoadFileToArray
  | GetStatData
  | ImportBufferAsImage (Buffer : List Nat) (Length : Int)
  deriving DecidableEq, Repr

/-- What `ImportFileAsImage` leaves behind: the two out-parameters and the
record of calls. -/
structure FFileImportResult where
  OutImage : FRuntimeImageData
  OutError : String
  Calls : List FFileCall
  deriving DecidableEq, Repr

/-- The engine constant `INDEX_NONE`. -/
def INDEX_NONE : Int := -1

/-- The constant `MAX_FILESIZE_BYTES` of `ImportFileAsImage` (line 379). -/
def MAX_FILESIZE_BYTES : Int := 999999999

/-- The function `ImportFileAsImage` (lines 374-417).  The result is `none`
when `check(ImageFileSizeBytes != INDEX_NONE)` fails.  The `%d` of the size
message prints the constant, which fits 32 bits.  The buffer handed on is the
loaded array with the byte 0 added, the length is `Num() - 1`. -/
def ImportFileAsImage (Files : FFileSystem) (Engine : FEngine) (ImageFilename : String)
    (OutImage : FRuntimeImageData) (OutError : String) : Option FFileImportResult :=
  if !Files.FileExists ImageFilename then
    some ⟨OutImage, "Image does not exist: " ++ ImageFilename, [.FileExists]⟩
  else
    let ImageFileSizeBytes := Files.FileSize ImageFilename
    if ImageFileSizeBytes = INDEX_NONE then none
    else if ImageFileSizeBytes > MAX_FILESIZE_BYTES then
      some
        ⟨OutImage,
          "Image filesize > " ++ toString MAX_FILESIZE_BYTES ++ " MBs): " ++ ImageFilename,
          [.FileExists, .FileSize]⟩
    else
      match Files.LoadFileToArray ImageFilename with
      | none =>
        some
          ⟨OutImage, "Image I/O error: " ++ ImageFilename,
            [.FileExists, .FileSize, .LoadFileToArray]⟩
      | some Loaded =>
        let ImageBuffer := Loaded ++ [0]
        let ImageFileStatData := Files.GetStatData ImageFilename
        let OutImage :=
          { OutImage with
            ModificationTime :=
              max ImageFileStatData.CreationTime ImageFileStatData.ModificationTime }
        let r :=
          ImportBufferAsImage Engine ImageBuffer ((ImageBuffer.length : Int) - 1) OutImage OutError
        some
          ⟨r.OutImage, r.OutError,
            [.FileExists, .FileSize, .LoadFileToArray, .GetStatData,
              .ImportBufferAsImage ImageBuffer ((ImageBuffer.length : Int) - 1)]⟩

/-- The call is the call of `ImportBufferAsImage`, the decode stage. -/
def FFileCall.IsDecode : FFileCall → Bool
  | .ImportBufferAsImage _ _ => true
  | _ => false

/-- The image with another modification time. -/
def WithModificationTime (Image : FRuntimeImageData) (Time : Int) : FRuntimeImageData :=
  { Image with ModificationTime := Time }

/-- The state with another modification time of the image. -/
def FImportState.WithTime (s : FImportState) (Time : Int) : FImportState :=
  { s with OutImage := WithModificationTime s.OutImage Time }

/-- The outcome of a block with another modification time of the image. -/
def FFlow.WithTime (Flow : FFlow) (Time : Int) : FFlow :=
  match Flow with
  | .Return Value s => .Return Value (s.WithTime Time)
  | .Continue s => .Continue (s.WithTime Time)

/-- The TGA decompressor does not touch the modification time of the image: run
on an image with another modification time it does the same, and the image it
leaves differs in that field only. -/
def DecompressTGAKeepsTime (Engine : FEngine) : Prop :=
  ∀ (Buffer : List Nat) (Image : FRuntimeImageData) (Error : String) (Time : Int),
    Engine.DecompressTGA Buffer (WithModificationTime Image Time) Error =
      ((Engine.DecompressTGA Buffer Image Error).1,
        WithModificationTime (Engine.DecompressTGA Buffer Image Error).2.1 Time,
        (Engine.DecompressTGA Buffer Image Error).2.2)

/-- A file system with one file, with the given size, contents and time stamps. -/
def OneFile (Name : String) (Size : Int) (Contents : Option (List Nat)) (Stat : FFileStatData) :
    FFileSystem :=
  { FileExists := fun n => n == Name
    FileSize := fun n => if n == Name then Size else INDEX_NONE
    LoadFileToArray := fun n => if n == Name then Contents else none
    GetStatData := fun _ => Stat }

end FRuntimeImageUtils

/-! ## Requests and results (`RuntimeImageReader.h`) -/

/-- The engine enumeration `TextureFilter`. -/
inductive TextureFilter where
  | TF_Nearest
  | TF_Bilinear
  | TF_Trilinear
  | TF_Default
  deriving DecidableEq, Repr

/-- The struct `FInputImageDescription`: a file name and the bytes of an image. -/
structure FInputImageDescription where
  ImageFilename : String := ""
  ImageBytes : List Nat := []
  deriving DecidableEq, Repr

/-- The struct `FTransformImageParams` with its default member initialisers. -/
structure FTransformImageParams where
  bForUI : Bool := true
  FilteringMode : TextureFilter := .TF_Default
  PercentSizeX : Int := 100
  PercentSizeY : Int := 100
  bOnlyPixels : Bool := false
  deriving DecidableEq, Repr

/-- The member function `FTransformImageParams::IsPercentSizeValid` (lines 61-64). -/
def FTransformImageParams.IsPercentSizeValid (Params : FTransformImageParams) : Bool :=
  decide (Params.PercentSizeX > 0) && decide (Params.PercentSizeX < 100) &&
    decide (Params.PercentSizeY > 0) && decide (Params.PercentSizeY < 100)

/-- The struct `FImageReadRequest`. -/
structure FImageReadRequest where
  InputImage : FInputImageDescription
  TransformParams : FTransformImageParams
  bPixelsOnly : Bool
  deriving DecidableEq, Repr

/-- The struct `FImageReadResult`; a texture pointer is `none` when null and
otherwise names the object, a pixel is its packed colour. -/
structure FImageReadResult where
  ImageFilename : String := ""
  OutImagePixels : List Nat := []
  OutTexture : Option Nat := none
  OutTextureCube : Option Nat := none
  OutError : String := ""
  deriving DecidableEq, Repr

namespace URuntimeImageReader

/-- Modelled from the spec: the request queue of `URuntimeImageReader`, whose
member functions are defined in `RuntimeImageReader.cpp`, which is not among the
translated sources.  From the class declaration it keeps the queue `Requests`
(the head is the request submitted first) and the array `Results`; `Processing`
is the request the worker has dequeued and is running, of which the
specification says that there is at most one. -/
structure FReaderState where
  Requests : List FImageReadRequest
  Processing : Option FImageReadRequest
  Results : List FImageReadResult
  deriving DecidableEq, Repr

/-- Modelled from the spec: a reader after `Initialize`, with nothing queued,
nothing in flight and no results. -/
def Initial : FReaderState :=
  ⟨[], none, []⟩

/-- Modelled from the spec: `AddRequest` (`RuntimeImageReader.cpp` is missing)
enqueues the request at the tail of the FIFO queue and returns. -/
def AddRequest (s : FReaderState) (Request : FImageReadRequest) : FReaderState :=
  { s with Requests := s.Requests ++ [Request] }

/-- Modelled from the spec: one step of the worker loop of `Run`
(`RuntimeImageReader.cpp` is missing).  The worker dequeues exactly one
request, runs the pipeline `ProcessRequest` on it, writes the result into the
result store and loops; `none` means that the worker has nothing to do. -/
def WorkerStep (ProcessRequest : FImageReadRequest → FImageReadResult) (s : FReaderState) :
    Option FReaderState :=
  match s.Processing with
  | some Request =>
    some { s with Processing := none, Results := s.Results ++ [ProcessRequest Request] }
  | none =>
    match s.Requests with
    | [] => none
    | Request :: Rest => some { s with Requests := Rest, Processing := some Request }

/-- Modelled from the spec: `IsWorkCompleted` (`RuntimeImageReader.cpp` is
missing) is true iff the queue is empty and no request is mid-processing. -/
def IsWorkCompleted (s : FReaderState) : Bool :=
  s.Requests.isEmpty && s.Processing.isNone

/-- The worker loop run for at most `Fuel` steps, until it has nothing to do. -/
def WorkerRun (ProcessRequest : FImageReadRequest → FImageReadResult) :
    Nat → FReaderState → FReaderState
  | 0, s => s
  | Fuel + 1, s =>
    match WorkerStep ProcessRequest s with
    | none => s
    | some s' => WorkerRun ProcessRequest Fuel s'

/-- Modelled from the spec: `BlockTillAllRequestsFinished`
(`RuntimeImageReader.cpp` is missing) blocks the caller until the work is
completed; meanwhile the worker runs.  Two steps for each queued request and
one for the request in flight are enough. -/
def BlockTillAllRequestsFinished (ProcessRequest : FImageReadRequest → FImageReadResult)
    (s : FReaderState) : FReaderState :=
  WorkerRun ProcessRequest (2 * s.Requests.length + 1) s

/-- What happens to a reader before the caller blocks: a producer submits a
request, or the worker thread makes a step. -/
inductive FReaderEvent where
  | AddRequest (Request : FImageReadRequest)
  | Worker
  deriving DecidableEq, Repr

/-- The reader after one event; a worker with nothing to do sleeps. -/
def Step (ProcessRequest : FImageReadRequest → FImageReadResult) (s : FReaderState) :
    FReaderEvent → FReaderState
  | .AddRequest Request => AddRequest s Request
  | .Worker => (WorkerStep ProcessRequest s).getD s

/-- The reader after a schedule of events, an interleaving of the producers
and the worker. -/
def Run (ProcessRequest : FImageReadRequest → FImageReadResult) (s : FReaderState)
    (Schedule : List FReaderEvent) : FReaderState :=
  Schedule.foldl (Step ProcessRequest) s

/-- The requests a schedule submits, in submission order. -/
def Submitted : List FReaderEvent → List FImageReadRequest
  | [] => []
  | .AddRequest Request :: Rest => Request :: Submitted Rest
  | .Worker :: Rest => Submitted Rest

/-- The requests of a reader that have no result yet, oldest first. -/
def Outstanding (s : FReaderState) : List FImageReadRequest :=
  s.Processing.toList ++ s.Requests

/-- A request for a file with the default parameters. -/
def FileRequest (Name : String) : FImageReadRequest :=
  ⟨{ ImageFilename := Name }, {}, false⟩

/-- A pipeline that answers with the file name and no error. -/
def EchoRequest (Request : FImageReadRequest) : FImageReadResult :=
  { ImageFilename := Request.InputImage.ImageFilename }

end URuntimeImageReader

namespace URuntimeGifReader

/-- The object `UAnimatedTexture2D` as `ProcessRequest` sees it: whether the
engine's `IsValid` accepts it, and what lines 120-123 write. -/
structure UAnimatedTexture2D where
  bIsValidObject : Bool
  bDecoderSet : Bool
  SRGB : Bool
  bResourceUpdated : Bool
  deriving DecidableEq, Repr

/-- The engine function `IsValid` on a pointer: not null and a valid object. -/
def IsValid : Option UAnimatedTexture2D → Bool
  | none => false
  | some Texture => Texture.bIsValidObject

/-- The request of the GIF reader, with the one member `ProcessRequest` reads. -/
structure FGifReadRequest where
  InputGif : FInputImageDescription := {}
  deriving DecidableEq, Repr

/-- Modelled from the spec: the result of the GIF reader (declared in
`RuntimeGifReader.h`, which is not among the translated sources), with the two
members `ProcessRequest` writes.  A new reader has no texture and an empty
error, as the specification says of a result: the error is the empty string on
success. -/
structure FGifReadResult where
  OutTexture : Option UAnimatedTexture2D := none
  OutError : String := ""
  deriving DecidableEq, Repr

/-- What `ProcessRequest` calls: the image reader of `FImageReaderFactory`, the
decoder `FRuntimeGIFLoaderHelper` and `UAnimatedTexture2D::Create`.  The
decoder's answers depend on the buffer it was given. -/
structure FGifServices where
  ReadImage : String → List Nat
  GetLastError : String → String
  DecodeGIF : List Nat → Bool
  GetDecodeError : List Nat → String
  GetWidth : List Nat → Int
  GetHeight : List Nat → Int
  Create : Int → Int → Option UAnimatedTexture2D

/-- The second half of `ProcessRequest` (lines 103-123), from the `check` on the
buffer on.  The result is `none` when the `check` fails. -/
def DecodeBuffer (Services : FGifServices) (ImageBuffer : List Nat)
    (ReadResult : FGifReadResult) : Option FGifReadResult :=
  if ¬(ImageBuffer.length > 0) then none
  else
    let bResult := Services.DecodeGIF ImageBuffer
    if !bResult then
      some
        { ReadResult with
          OutError := "Error: Failed to decode GIF: " ++ Services.GetDecodeError ImageBuffer }
    else
      let ReadResult :=
        { ReadResult with
          OutTexture :=
            Services.Create (Services.GetWidth ImageBuffer) (Services.GetHeight ImageBuffer) }
      if !IsValid ReadResult.OutTexture then
        some { ReadResult with OutError := "Error: Failed to Create Animated Texture Gif." }
      else
        some
          { ReadResult with
            OutTexture :=
              ReadResult.OutTexture.map fun Texture =>
                { Texture with bDecoderSet := true, SRGB := true, bResourceUpdated := true } }

/-- The function `URuntimeGifReader::ProcessRequest` (lines 71-124) on the
members `Request` and `ReadResult`.  The result is `none` when
`check (ImageBuffer.Num() > 0)` fails. -/
def ProcessRequest (Services : FGifServices) (Request : FGifReadRequest)
    (ReadResult : FGifReadResult) : Option FGifReadResult :=
  let GifFilename := Request.InputGif.ImageFilename
  if GifFilename.length > 0 then
    let ImageBuffer := Services.ReadImage GifFilename
    if ImageBuffer.length = 0 then
      some
        { ReadResult with
          OutError :=
            "Failed to read GIF: " ++ GifFilename ++ ". Error: " ++
              Services.GetLastError GifFilename }
    else DecodeBuffer Services ImageBuffer ReadResult
  else if Request.InputGif.ImageBytes.length > 0 then
    DecodeBuffer Services Request.InputGif.ImageBytes ReadResult
  else DecodeBuffer Services [] ReadResult

/-- The delegate that `OnPostProcessRequest` broadcasts, with its argument. -/
inductive FGifBroadcast where
  | OnSuccess (Texture : Option UAnimatedTexture2D)
  | OnFail (Error : String)
  deriving DecidableEq, Repr

/-- The task of `URuntimeGifReader::OnPostProcessRequest` (lines 126-141). -/
def OnPostProcessRequest (ReadResult : FGifReadResult) : FGifBroadcast :=
  if ReadResult.OutError = "" then .OnSuccess ReadResult.OutTexture
  else .OnFail ReadResult.OutError

/-- Where `SubmitRequest` runs the request. -/
inductive EGifExecution where
  | CallingThread
  | ThreadPool
  deriving DecidableEq, Repr

/-- What a submitted request leaves: the result, the broadcast and the place
of execution. -/
structure FGifOutcome where
  ReadResult : FGifReadResult
  Broadcast : FGifBroadcast
  Execution : EGifExecution
  deriving DecidableEq, Repr

/-- The function `URuntimeGifReader::SubmitRequest` (lines 43-69) on a reader
with the given `ReadResult`: both branches run `ProcessRequest` and then
`OnPostProcessRequest`, on the calling thread or as a task of the thread pool.
The result is `none` when the `check` of `ProcessRequest` fails. -/
def SubmitRequest (Services : FGifServices) (ReadResult : FGifReadResult)
    (InRequest : FGifReadRequest) (bSynchronous : Bool) (bIsCallerGameThread : Bool) :
    Option FGifOutcome :=
  let Request := InRequest
  if bIsCallerGameThread && bSynchronous then
    match ProcessRequest Services Request ReadResult with
    | none => none
    | some r => some ⟨r, OnPostProcessRequest r, .CallingThread⟩
  else
    match ProcessRequest Services Request ReadResult with
    | none => none
    | some r => some ⟨r, OnPostProcessRequest r, .ThreadPool⟩

/-- The function `URuntimeGifReader::LoadGIF` (lines 15-26): a request with the
file name as given, submitted to a new reader. -/
def LoadGIF (Services : FGifServices) (GIFFilename : String) (_InFilterMode : TextureFilter)
    (bSynchronous : Bool) (bIsCallerGameThread : Bool) : Option FGifOutcome :=
  let Request : FGifReadRequest := { InputGif := { ImageFilename := GIFFilename } }
  SubmitRequest Services {} Request bSynchronous bIsCallerGameThread

/-- The function `URuntimeGifReader::LoadGIFFromBytes` (lines 28-39): a request
with the bytes as given, submitted to a new reader. -/
def LoadGIFFromBytes (Services : FGifServices) (GifBytes : List Nat)
    (_InFilterMode : TextureFilter) (bSynchronous : Bool) (bIsCallerGameThread : Bool) :
    Option FGifOutcome :=
  let Request : FGifReadRequest := { InputGif := { ImageBytes := GifBytes } }
  SubmitRequest Services {} Request bSynchronous bIsCallerGameThread

/-- The buffer `ProcessRequest` works on: the bytes read from the file when
the request names one, the bytes of the request otherwise. -/
def InputBuffer (Services : FGifServices) (Request : FGifReadRequest) : List Nat :=
  if Request.InputGif.ImageFilename.length > 0 then
    Services.ReadImage Request.InputGif.ImageFilename
  else Request.InputGif.ImageBytes

/-- Services for examples: every file holds the six bytes of a GIF signature,
the decoder accepts what starts with the byte 71 and reports 2 x 2 pixels, and
the texture is created when the size is positive. -/
def ExampleServices : FGifServices :=
  { ReadImage := fun _ => [71, 73, 70, 56, 57, 97]
    GetLastError := fun _ => ""
    DecodeGIF := fun Buffer => Buffer.head? == some 71
    GetDecodeError := fun _ => "not a GIF"
    GetWidth := fun _ => 2
    GetHeight := fun _ => 2
    Create := fun w h => if 0 < w ∧ 0 < h then some ⟨true, false, false, false⟩ else none }

end URuntimeGifReader

namespace FRuntimeImageUtils

/-! ## Auxiliary facts -/

theorem append_ne_empty (a b : String) (h : a ≠ "") : a ++ b ≠ "" := by
  intro hab
  apply h
  have hd := congrArg String.data hab
  simp only [String.data_append] at hd
  have ha : a.data = [] := (List.append_eq_nil.mp hd).1
  exact String.ext ha

theorem ResolutionError_ne_empty (w h : Int) : ResolutionError w h ≠ "" := by
  unfold ResolutionError
  exact append_ne_empty _ _ (append_ne_empty _ _ (append_ne_empty _ _ (by decide)))

@[simp] theorem mem_SniffCalls_iff {Engine : FEngine} {Format : EImageFormat} {c : FCall} :
    c ∈ SniffCalls Engine Format ↔
      c = .SetCompressed Format ∧ (Engine.CreateImageWrapper Format).isSome = true := by
  unfold SniffCalls
  cases hW : Engine.CreateImageWrapper Format <;> simp

theorem ImportPNG_of_sniff_none {Engine : FEngine} {Buffer : List Nat} {Length : Int}
    (h : Sniff Engine .PNG Buffer Length = none) (s : FImportState) :
    ImportPNG Engine Buffer Length s =
      .Continue ⟨s.OutImage, s.OutError, s.Calls ++ SniffCalls Engine .PNG⟩ := by
  unfold Sniff at h
  unfold ImportPNG SniffCalls
  cases hW : Engine.CreateImageWrapper .PNG with
  | none => simp
  | some W => simp [hW] at h; simp [h, FImportState.Call]

theorem ImportPNG_of_sniff_some {Engine : FEngine} {Buffer : List Nat} {Length : Int}
    {Png : FLoadedImageWrapper} (h : Sniff Engine .PNG Buffer Length = some Png)
    (s : FImportState) :
    ImportPNG Engine Buffer Length s = DecodePNG Engine Png (s.Call (.SetCompressed .PNG)) := by
  unfold Sniff at h
  unfold ImportPNG
  cases hW : Engine.CreateImageWrapper .PNG with
  | none => simp [hW] at h
  | some W => simp [hW] at h; simp [h]

theorem ImportJPEG_of_sniff_none {Engine : FEngine} {Buffer : List Nat} {Length : Int}
    (h : Sniff Engine .JPEG Buffer Length = none) (s : FImportState) :
    ImportJPEG Engine Buffer Length s =
      .Continue ⟨s.OutImage, s.OutError, s.Calls ++ SniffCalls Engine .JPEG⟩ := by
  unfold Sniff at h
  unfold ImportJPEG SniffCalls
  cases hW : Engine.CreateImageWrapper .JPEG with
  | none => simp
  | some W => simp [hW] at h; simp [h, FImportState.Call]

theorem ImportJPEG_of_sniff_some {Engine : FEngine} {Buffer : List Nat} {Length : Int}
    {Jpeg : FLoadedImageWrapper} (h : Sniff Engine .JPEG Buffer Length = some Jpeg)
    (s : FImportState) :
    ImportJPEG Engine Buffer Length s = DecodeJPEG Engine Jpeg (s.Call (.SetCompressed .JPEG)) := by
  unfold Sniff at h
  unfold ImportJPEG
  cases hW : Engine.CreateImageWrapper .JPEG with
  | none => simp [hW] at h
  | some W => simp [hW] at h; simp [h]

theorem ImportBMP_of_sniff_none {Engine : FEngine} {Buffer : List Nat} {Length : Int}
    (h : Sniff Engine .BMP Buffer Length = none) (s : FImportState) :
    ImportBMP Engine Buffer Length s =
      .Continue ⟨s.OutImage, s.OutError, s.Calls ++ SniffCalls Engine .BMP⟩ := by
  unfold Sniff at h
  unfold ImportBMP SniffCalls
  cases hW : Engine.CreateImageWrapper .BMP with
  | none => simp
  | some W => simp [hW] at h; simp [h, FImportState.Call]

theorem ImportBMP_of_sniff_some {Engine : FEngine} {Buffer : List Nat} {Length : Int}
    {Bmp : FLoadedImageWrapper} (h : Sniff Engine .BMP Buffer Length = some Bmp)
    (s : FImportState) :
    ImportBMP Engine Buffer Length s = DecodeBMP Engine Bmp (s.Call (.SetCompressed .BMP)) := by
  unfold Sniff at h
  unfold ImportBMP
  cases hW : Engine.CreateImageWrapper .BMP with
  | none => simp [hW] at h
  | some W => simp [hW] at h; simp [h]

theorem ImportEXR_of_sniff_none {Engine : FEngine} {Buffer : List Nat} {Length : Int}
    (h : Sniff Engine .EXR Buffer Length = none) (s : FImportState) :
    ImportEXR Engine Buffer Length s =
      .Continue ⟨s.OutImage, s.OutError, s.Calls ++ SniffCalls Engine .EXR⟩ := by
  unfold Sniff at h
  unfold ImportEXR SniffCalls
  cases hW : Engine.CreateImageWrapper .EXR with
  | none => simp
  | some W => simp [hW] at h; simp [h, FImportState.Call]

theorem ImportEXR_of_sniff_some {Engine : FEngine} {Buffer : List Nat} {Length : Int}
    {Exr : FLoadedImageWrapper} (h : Sniff Engine .EXR Buffer Length = some Exr)
    (s : FImportState) :
    ImportEXR Engine Buffer Length s = DecodeEXR Engine Exr (s.Call (.SetCompressed .EXR)) := by
  unfold Sniff at h
  unfold ImportEXR
  cases hW : Engine.CreateImageWrapper .EXR with
  | none => simp [hW] at h
  | some W => simp [hW] at h; simp [h]

theorem ImportTGA_of_not_claims {Engine : FEngine} {Buffer : List Nat} {Length : Int}
    (h : TGAHeaderTest Engine Buffer Length = false) (s : FImportState) :
    ImportTGA Engine Buffer Length s =
      .Continue ⟨s.OutImage, s.OutError, s.Calls ++ [.TGAHeaderTest]⟩ := by
  simp [ImportTGA, h, FImportState.Call]

theorem ImportTGA_of_claims {Engine : FEngine} {Buffer : List Nat} {Length : Int}
    (h : TGAHeaderTest Engine Buffer Length = true) (s : FImportState) :
    ImportTGA Engine Buffer Length s = DecodeTGA Engine Buffer (s.Call .TGAHeaderTest) := by
  simp [ImportTGA, h]

theorem ImportTIFF_of_not_valid {Engine : FEngine} {Buffer : List Nat} {Length : Int}
    (h : Engine.TiffLoaderHelper.IsValid = false) (s : FImportState) :
    ImportTIFF Engine Buffer Length s = .Continue s := by
  simp [ImportTIFF, h]

theorem sniff_none_of_isSome_false {Engine : FEngine} {Format : EImageFormat}
    {Buffer : List Nat} {Length : Int}
    (h : (Sniff Engine Format Buffer Length).isSome = false) :
    Sniff Engine Format Buffer Length = none := by
  cases hS : Sniff Engine Format Buffer Length <;> simp [hS] at h ⊢

@[simp] theorem append_eq_empty_iff (a b : String) : a ++ b = "" ↔ a = "" ∧ b = "" := by
  constructor
  · intro hab
    have hd := congrArg String.data hab
    simp only [String.data_append] at hd
    exact ⟨String.ext (List.append_eq_nil.mp hd).1, String.ext (List.append_eq_nil.mp hd).2⟩
  · rintro ⟨rfl, rfl⟩
    rfl

/-! ## Claims -/

/-- C3. For each of the codecs PNG, JPEG, BMP, TGA and EXR: when the codec is the
first to claim the buffer, the sniffed size passes the resolution policy and the
pixel extraction the block asks for fails (`GetRaw`, for TGA `DecompressTGA`,
returns false), `ImportBufferAsImage` returns false with a non-empty `OutError`,
the dispatcher never calls `Init2D`, and for the wrapper-based codecs the output
image is the one passed in. -/
theorem C3_extraction_failure_is_an_error (Engine : FEngine) (Buffer : List Nat) (Length : Int)
    (OutImage : FRuntimeImageData) (OutError : String) (Codec : ECodec)
    (hCodec : Codec ≠ .TIFF)
    (hFirst : FirstClaimant Engine Codec Buffer Length)
    (hRes : ResolutionPasses Engine Codec Buffer Length = true)
    (hFail : ExtractionFails Engine Codec Buffer Length OutImage OutError = true) :
    (ImportBufferAsImage Engine Buffer Length OutImage OutError).Value = false ∧
      (ImportBufferAsImage Engine Buffer Length OutImage OutError).OutError ≠ "" ∧
      (∀ c ∈ (ImportBufferAsImage Engine Buffer Length OutImage OutError).Calls,
        c.IsInit2D = false) ∧
      (Codec ≠ .TGA →
        (ImportBufferAsImage Engine Buffer Length OutImage OutError).OutImage = OutImage) := by
  obtain ⟨hClaim, hEarlier⟩ := hFirst
  cases Codec with
  | TIFF => exact absurd rfl hCodec
  | PNG =>
    obtain ⟨P, hP⟩ := Option.isSome_iff_exists.mp hClaim
    simp only [Header] at hP
    simp only [ResolutionPasses, SniffedSize, Header, hP] at hRes
    simp only [ExtractionFails, Header, hP, Requested, Option.isNone_iff_eq_none] at hFail
    by_cases h16 : (SelectPNG P.GetFormat P.GetBitDepth).BitDepth > 16 <;>
      simp [ImportBufferAsImage, ImportPNG_of_sniff_some hP, DecodePNG, hRes, hFail, h16,
        FFlow.Then, FFlow.Result,
        FImportResult.Make, FImportState.Call, FCall.IsInit2D, or_imp, forall_and]
  | JPEG =>
    have h1 := sniff_none_of_isSome_false (hEarlier .PNG (by decide))
    obtain ⟨P, hP⟩ := Option.isSome_iff_exists.mp hClaim
    simp only [Header] at hP
    simp only [ResolutionPasses, SniffedSize, Header, hP] at hRes
    simp only [ExtractionFails, Header, hP, Requested, Option.isNone_iff_eq_none] at hFail
    by_cases hInv : (SelectJPEG P.GetFormat P.GetBitDepth).TextureFormat = .TSF_Invalid <;>
      simp [ImportBufferAsImage, ImportPNG_of_sniff_none h1, ImportJPEG_of_sniff_some hP,
        DecodeJPEG, hRes, hFail, hInv, FFlow.Then, FFlow.Result,
        FImportResult.Make, FImportState.Call, FCall.IsInit2D, or_imp, forall_and]
  | BMP =>
    have h1 := sniff_none_of_isSome_false (hEarlier .PNG (by decide))
    have h2 := sniff_none_of_isSome_false (hEarlier .JPEG (by decide))
    obtain ⟨P, hP⟩ := Option.isSome_iff_exists.mp hClaim
    simp only [Header] at hP
    simp only [ResolutionPasses, SniffedSize, Header, hP] at hRes
    simp only [ExtractionFails, Header, hP, Requested, Option.isNone_iff_eq_none] at hFail
    simp [ImportBufferAsImage, ImportPNG_of_sniff_none h1, ImportJPEG_of_sniff_none h2,
      ImportBMP_of_sniff_some hP, DecodeBMP, hRes, hFail,
      FFlow.Then, FFlow.Result,
        FImportResult.Make, FImportState.Call, FCall.IsInit2D, or_imp, forall_and]
  | TGA =>
    have h1 := sniff_none_of_isSome_false (hEarlier .PNG (by decide))
    have h2 := sniff_none_of_isSome_false (hEarlier .JPEG (by decide))
    have h3 := sniff_none_of_isSome_false (hEarlier .BMP (by decide))
    simp only [Claims] at hClaim
    simp only [ResolutionPasses, SniffedSize] at hRes
    simp only [ExtractionFails, Bool.not_eq_true'] at hFail
    simp [ImportBufferAsImage, ImportPNG_of_sniff_none h1, ImportJPEG_of_sniff_none h2,
      ImportBMP_of_sniff_none h3, ImportTGA_of_claims hClaim, DecodeTGA, hRes, hFail,
      FFlow.Then, FFlow.Result,
        FImportResult.Make, FImportState.Call, FCall.IsInit2D, or_imp, forall_and]
  | EXR =>
    have h1 := sniff_none_of_isSome_false (hEarlier .PNG (by decide))
    have h2 := sniff_none_of_isSome_false (hEarlier .JPEG (by decide))
    have h3 := sniff_none_of_isSome_false (hEarlier .BMP (by decide))
    have h4 : TGAHeaderTest Engine Buffer Length = false := hEarlier .TGA (by decide)
    obtain ⟨P, hP⟩ := Option.isSome_iff_exists.mp hClaim
    simp only [Header] at hP
    simp only [ResolutionPasses, SniffedSize, Header, hP] at hRes
    simp only [ExtractionFails, Header, hP, Requested, Option.isNone_iff_eq_none] at hFail
    by_cases hInv : (SelectEXR P.GetFormat P.GetBitDepth).TextureFormat = .TSF_Invalid <;>
      simp [ImportBufferAsImage, ImportPNG_of_sniff_none h1, ImportJPEG_of_sniff_none h2,
        ImportBMP_of_sniff_none h3, ImportTGA_of_not_claims h4, ImportEXR_of_sniff_some hP,
        DecodeEXR, hRes, hFail, hInv,
        FFlow.Then, FFlow.Result,
        FImportResult.Make, FImportState.Call, FCall.IsInit2D, or_imp, forall_and]

/-- Witness of C3: an EXR whose `GetRaw` fails. -/
theorem C3_extraction_failure_is_an_error_witness :
    FirstClaimant (WrapperEngine .EXR (CorruptImage 32 32 16 .RGBA)) .EXR [118, 47, 49, 1] 4 ∧
      (ImportBufferAsImage (WrapperEngine .EXR (CorruptImage 32 32 16 .RGBA)) [118, 47, 49, 1] 4
          BlankImage "").Value = false ∧
      (ImportBufferAsImage (WrapperEngine .EXR (CorruptImage 32 32 16 .RGBA)) [118, 47, 49, 1] 4
          BlankImage "").OutError ≠ "" :=
  have h :=
    C3_extraction_failure_is_an_error (WrapperEngine .EXR (CorruptImage 32 32 16 .RGBA))
      [118, 47, 49, 1] 4 BlankImage "" .EXR (by decide) (by decide) (by decide) (by decide)
  ⟨by decide, h.1, h.2.1⟩

/-- C1, evaluated: a true-colour TGA that `DecompressTGA` decodes.  The TGA block
is the first to claim the buffer, yet the EXR wrapper and the TIFF loader are
consulted after it, and the function returns false with the TIFF error, while
the image holds the decoded TGA. -/
theorem C1_TGA_success_falls_through :
    FirstClaimant TGAEngine .TGA TrueColorTGA 18 ∧
      (TGAEngine.DecompressTGA TrueColorTGA BlankImage "").1 = true ∧
      ImportBufferAsImage TGAEngine TrueColorTGA 18 BlankImage "" =
        ⟨false, Init2D 4 4 .TSF_BGRA8 (List.replicate 64 255) BlankImage,
          "Failed to decode TIFF. Bits per pixel: 0",
          [.SetCompressed .PNG, .SetCompressed .JPEG, .SetCompressed .BMP, .TGAHeaderTest,
            .DecompressTGA, .SetCompressed .EXR, .TiffLoad]⟩ := by
  decide

/-- C2, evaluated: an empty buffer, which no codec claims, with no TIFF loader
available.  The function returns true and leaves `OutError` empty and the image
untouched. -/
theorem C2_unclaimed_buffer_returns_true :
    (∀ c : ECodec, c ∈ [ECodec.PNG, .JPEG, .BMP, .TGA, .EXR, .TIFF] →
        Claims BareEngine c [] 0 = false) ∧
      ImportBufferAsImage BareEngine [] 0 BlankImage "" =
        ⟨true, BlankImage, "",
          [.SetCompressed .PNG, .SetCompressed .JPEG, .SetCompressed .BMP, .TGAHeaderTest,
            .SetCompressed .EXR]⟩ := by
  decide

/-- C4, evaluated: an EXR of 16384 x 16384 pixels.  The EXR block claims the
buffer, the resolution policy rejects the size, and the function returns false
without writing `OutError`, which stays empty. -/
theorem C4_EXR_resolution_rejected_without_error :
    FirstClaimant (WrapperEngine .EXR (SoundImage 16384 16384 16 .RGBA [])) .EXR
        [118, 47, 49, 1] 4 ∧
      ResolutionPasses (WrapperEngine .EXR (SoundImage 16384 16384 16 .RGBA [])) .EXR
        [118, 47, 49, 1] 4 = false ∧
      ImportBufferAsImage (WrapperEngine .EXR (SoundImage 16384 16384 16 .RGBA []))
          [118, 47, 49, 1] 4 BlankImage "" =
        ⟨false, BlankImage, "",
          [.SetCompressed .PNG, .SetCompressed .JPEG, .SetCompressed .BMP, .TGAHeaderTest,
            .SetCompressed .EXR]⟩ := by
  decide

theorem toInt32_shift (k : Nat) (hk : k ≤ 30) : toInt32 (1 * 2 ^ k) = 2 ^ k := by
  have h1 : (2 : Int) ^ k ≤ 2 ^ 30 := pow_le_pow_right₀ (by norm_num) hk
  have h2 : (0 : Int) < 2 ^ k := by positivity
  unfold toInt32
  norm_num at h1 ⊢
  omega

/-- The policy in terms of whatever power-of-two test the engine has: the
result is true if and only if both dimensions are at most 8192, both are at
most `2 ^ (M - 1)`, and non-power-of-two sizes are allowed or both dimensions
pass the test; each of the three reasons alone rejects. -/
theorem IsImportResolutionValid_iff (Engine : FEngine) (Width Height : Int)
    (bAllowNonPowerOfTwo : Bool)
    (hM : 1 ≤ Engine.GMaxTextureMipCount ∧ Engine.GMaxTextureMipCount ≤ 31) :
    (IsImportResolutionValid Engine Width Height bAllowNonPowerOfTwo = true ↔
        (Width ≤ 8192 ∧ Height ≤ 8192) ∧
          (Width ≤ 2 ^ (Engine.GMaxTextureMipCount - 1).toNat ∧
            Height ≤ 2 ^ (Engine.GMaxTextureMipCount - 1).toNat) ∧
          (bAllowNonPowerOfTwo = true ∨
            (Engine.IsPowerOfTwo Width = true ∧ Engine.IsPowerOfTwo Height = true))) ∧
      (Width > 8192 ∨ Height > 8192 →
        IsImportResolutionValid Engine Width Height bAllowNonPowerOfTwo = false) ∧
      (Width > 2 ^ (Engine.GMaxTextureMipCount - 1).toNat ∨
          Height > 2 ^ (Engine.GMaxTextureMipCount - 1).toNat →
        IsImportResolutionValid Engine Width Height bAllowNonPowerOfTwo = false) ∧
      (bAllowNonPowerOfTwo = false ∧
          ¬(Engine.IsPowerOfTwo Width = true ∧ Engine.IsPowerOfTwo Height = true) →
        IsImportResolutionValid Engine Width Height bAllowNonPowerOfTwo = false) := by
  have hk : (Engine.GMaxTextureMipCount - 1).toNat ≤ 30 := by omega
  have hiff :
      IsImportResolutionValid Engine Width Height bAllowNonPowerOfTwo = true ↔
        (Width ≤ 8192 ∧ Height ≤ 8192) ∧
          (Width ≤ 2 ^ (Engine.GMaxTextureMipCount - 1).toNat ∧
            Height ≤ 2 ^ (Engine.GMaxTextureMipCount - 1).toNat) ∧
          (bAllowNonPowerOfTwo = true ∨
            (Engine.IsPowerOfTwo Width = true ∧ Engine.IsPowerOfTwo Height = true)) := by
    unfold IsImportResolutionValid
    rw [toInt32_shift _ hk]
    generalize (2 : Int) ^ (Engine.GMaxTextureMipCount - 1).toNat = m
    cases bAllowNonPowerOfTwo <;> cases Engine.IsPowerOfTwo Width <;>
      cases Engine.IsPowerOfTwo Height <;> simp
  refine ⟨hiff, ?_, ?_, ?_⟩
  · intro h
    rw [← Bool.not_eq_true, hiff]
    omega
  · intro h
    rw [← Bool.not_eq_true, hiff]
    omega
  · intro h
    rw [← Bool.not_eq_true, hiff]
    rintro ⟨-, -, h3⟩
    rcases h3 with h3 | h3
    · simp [h.1] at h3
    · exact h.2 h3

/-- Bit `k` of a number in `[2 ^ k, 2 ^ (k + 1))` is set. -/
theorem testBit_of_mem_range {n k : Nat} (h1 : 2 ^ k ≤ n) (h2 : n < 2 ^ (k + 1)) :
    n.testBit k = true := by
  rw [Nat.testBit_to_div_mod]
  have : n / 2 ^ k = 1 := by
    apply Nat.div_eq_of_lt_le
    · simpa using h1
    · rw [pow_succ] at h2
      omega
  simp [this]

/-- For a positive number, `n & (n - 1)` is zero exactly at the powers of two. -/
theorem land_pred_eq_zero_iff (n : Nat) (hn : 1 ≤ n) :
    n &&& (n - 1) = 0 ↔ ∃ k : Nat, n = 2 ^ k := by
  constructor
  · intro h
    by_contra hne
    push_neg at hne
    have h1 : 2 ^ n.log2 ≤ n := Nat.log2_self_le (by omega)
    have h2 : n < 2 ^ (n.log2 + 1) := Nat.lt_log2_self
    have h3 : 2 ^ n.log2 ≤ n - 1 := by
      have := hne n.log2
      omega
    have hb1 := testBit_of_mem_range h1 h2
    have hb2 := testBit_of_mem_range h3 (by omega)
    have hb : (n &&& (n - 1)).testBit n.log2 = true := by
      rw [Nat.testBit_and, hb1, hb2]
      rfl
    rw [h] at hb
    simp at hb
  · rintro ⟨k, rfl⟩
    rw [Nat.and_pow_two_sub_one_eq_mod]
    simp

/-- The engine test at `int32`: it passes the powers of two, 0 and the least
`int32`, and nothing else. -/
theorem FMathIsPowerOfTwo_iff (v : Int) (hv : -2 ^ 31 ≤ v ∧ v < 2 ^ 31) :
    FMathIsPowerOfTwo v = true ↔ IsPowerOfTwoZeroOrMin v := by
  obtain ⟨hlo, hhi⟩ := hv
  norm_num at hlo hhi
  unfold FMathIsPowerOfTwo IsPowerOfTwoZeroOrMin toInt32
  rcases lt_trichotomy v 0 with hneg | rfl | hpos
  · by_cases hmin : v = -2147483648
    · subst hmin
      simp
      decide
    · have e1 : v % 2 ^ 32 = v + 4294967296 := by
        norm_num
        omega
      have e2 : ((v - 1 + 2 ^ 31) % 2 ^ 32 - 2 ^ 31) % 2 ^ 32 = v + 4294967296 - 1 := by
        norm_num
        omega
      rw [e1, e2]
      obtain ⟨u, hu⟩ : ∃ u : Nat, v + 4294967296 = (u : Int) :=
        ⟨(v + 4294967296).toNat, (Int.toNat_of_nonneg (by omega)).symm⟩
      have hu1 : 2147483648 < u := by omega
      have hu2 : u < 4294967296 := by omega
      have e3 : ((u : Int) - 1).toNat = u - 1 := by omega
      rw [hu, Int.toNat_ofNat, e3]
      have hfalse : ¬ (u &&& (u - 1) = 0) := by
        rw [land_pred_eq_zero_iff u (by omega)]
        rintro ⟨k, hk⟩
        rcases Nat.lt_or_ge k 32 with h | h
        · have : k ≤ 31 := by omega
          have := Nat.pow_le_pow_right (show 0 < 2 by norm_num) this
          omega
        · have := Nat.pow_le_pow_right (show 0 < 2 by norm_num) h
          omega
      have hrhs : ¬ ((∃ k : Nat, v = 2 ^ k) ∨ v = 0 ∨ v = -2 ^ 31) := by
        rintro (⟨k, hk⟩ | h | h)
        · have : (0 : Int) < 2 ^ k := by positivity
          omega
        · omega
        · norm_num at h
          exact hmin h
      constructor
      · intro h
        exact absurd (by simpa using h) hfalse
      · intro h
        exact absurd h hrhs
  · simp
  · obtain ⟨n, rfl⟩ : ∃ n : Nat, v = (n : Int) :=
      ⟨v.toNat, (Int.toNat_of_nonneg (by omega)).symm⟩
    have e1 : (n : Int) % 2 ^ 32 = n := by
      norm_num
      omega
    have e2 : (((n : Int) - 1 + 2 ^ 31) % 2 ^ 32 - 2 ^ 31) % 2 ^ 32 = (n : Int) - 1 := by
      norm_num
      omega
    have e3 : ((n : Int) - 1).toNat = n - 1 := by omega
    rw [e1, e2, Int.toNat_ofNat, e3]
    have hn : 1 ≤ n := by omega
    rw [beq_iff_eq, land_pred_eq_zero_iff n hn]
    constructor
    · rintro ⟨k, hk⟩
      exact Or.inl ⟨k, by exact_mod_cast hk⟩
    · rintro (⟨k, hk⟩ | h | h)
      · exact ⟨k, by exact_mod_cast hk⟩
      · omega
      · norm_num at h
        omega

/-- C5, as stated, fails at 0 x 0 and at the least `int32`: with the engine
test `(v & (v - 1)) == 0`, a mip count of 15 and power-of-two sizes required,
`IsImportResolutionValid` returns true, although neither 0 nor the least
`int32` is a power of two, so the right-hand side of the stated equivalence is
false. -/
theorem C5_counterexample_zero_size :
    (1 ≤ BareEngine.GMaxTextureMipCount ∧ BareEngine.GMaxTextureMipCount ≤ 31) ∧
      (∀ v : Int, BareEngine.IsPowerOfTwo v = FMathIsPowerOfTwo v) ∧
      IsImportResolutionValid BareEngine 0 0 false = true ∧
      IsImportResolutionValid BareEngine (-2 ^ 31) (-2 ^ 31) false = true ∧
      (¬ ∃ k : Nat, (0 : Int) = 2 ^ k) ∧
      (¬ ∃ k : Nat, (-2 ^ 31 : Int) = 2 ^ k) ∧
      ¬ (((0 : Int) ≤ 8192 ∧ (0 : Int) ≤ 8192) ∧
          ((0 : Int) ≤ 2 ^ (BareEngine.GMaxTextureMipCount - 1).toNat ∧
            (0 : Int) ≤ 2 ^ (BareEngine.GMaxTextureMipCount - 1).toNat) ∧
          (false = true ∨ ((∃ k : Nat, (0 : Int) = 2 ^ k) ∧ ∃ k : Nat, (0 : Int) = 2 ^ k))) := by
  have h0 : ¬ ∃ k : Nat, (0 : Int) = 2 ^ k := by
    rintro ⟨k, hk⟩
    have : (0 : Int) < 2 ^ k := by positivity
    omega
  have hmin : ¬ ∃ k : Nat, (-2 ^ 31 : Int) = 2 ^ k := by
    rintro ⟨k, hk⟩
    have : (0 : Int) < 2 ^ k := by positivity
    norm_num at hk
    omega
  refine ⟨by decide, fun _ => rfl, by decide, by decide, h0, hmin, ?_⟩
  rintro ⟨-, -, h | ⟨h, -⟩⟩
  · cases h
  · exact h0 h

/-- C5, amended. For all `int32` width and height, every flag, and every global
mip count `M` with `1 ≤ M ≤ 31`, the engine test being
`(v & (v - 1)) == 0`: `IsImportResolutionValid` returns true if and only if
both dimensions are at most 8192, both are at most `2 ^ (M - 1)`, and
non-power-of-two sizes are allowed or each dimension is a power of two, 0 or
the least `int32`; each of the three reasons alone rejects. -/
theorem C5_resolution_policy (Engine : FEngine) (Width Height : Int)
    (bAllowNonPowerOfTwo : Bool)
    (hM : 1 ≤ Engine.GMaxTextureMipCount ∧ Engine.GMaxTextureMipCount ≤ 31)
    (hPow : ∀ v : Int, Engine.IsPowerOfTwo v = FMathIsPowerOfTwo v)
    (hW : -2 ^ 31 ≤ Width ∧ Width < 2 ^ 31) (hH : -2 ^ 31 ≤ Height ∧ Height < 2 ^ 31) :
    (IsImportResolutionValid Engine Width Height bAllowNonPowerOfTwo = true ↔
        (Width ≤ 8192 ∧ Height ≤ 8192) ∧
          (Width ≤ 2 ^ (Engine.GMaxTextureMipCount - 1).toNat ∧
            Height ≤ 2 ^ (Engine.GMaxTextureMipCount - 1).toNat) ∧
          (bAllowNonPowerOfTwo = true ∨
            (IsPowerOfTwoZeroOrMin Width ∧ IsPowerOfTwoZeroOrMin Height))) ∧
      (Width > 8192 ∨ Height > 8192 →
        IsImportResolutionValid Engine Width Height bAllowNonPowerOfTwo = false) ∧
      (Width > 2 ^ (Engine.GMaxTextureMipCount - 1).toNat ∨
          Height > 2 ^ (Engine.GMaxTextureMipCount - 1).toNat →
        IsImportResolutionValid Engine Width Height bAllowNonPowerOfTwo = false) ∧
      (bAllowNonPowerOfTwo = false ∧
          ¬(IsPowerOfTwoZeroOrMin Width ∧ IsPowerOfTwoZeroOrMin Height) →
        IsImportResolutionValid Engine Width Height bAllowNonPowerOfTwo = false) := by
  have h := IsImportResolutionValid_iff Engine Width Height bAllowNonPowerOfTwo hM
  rw [hPow Width, hPow Height, FMathIsPowerOfTwo_iff Width hW,
    FMathIsPowerOfTwo_iff Height hH] at h
  exact h

/-- Witness of C5: with a mip count of 15 and power of two required, 8192 x 4096
and 0 x 4096 pass, 4096 x 3000 does not; 8193 x 4096 does not pass even when
non-power-of-two sizes are allowed. -/
theorem C5_resolution_policy_witness :
    (1 ≤ BareEngine.GMaxTextureMipCount ∧ BareEngine.GMaxTextureMipCount ≤ 31) ∧
      (∀ v : Int, BareEngine.IsPowerOfTwo v = FMathIsPowerOfTwo v) ∧
      IsImportResolutionValid BareEngine 8192 4096 false = true ∧
      IsImportResolutionValid BareEngine 0 4096 false = true ∧
      IsImportResolutionValid BareEngine 8193 4096 true = false ∧
      IsImportResolutionValid BareEngine 4096 3000 false = false :=
  ⟨by decide, fun _ => rfl,
    (C5_resolution_policy BareEngine 8192 4096 false (by decide) (fun _ => rfl)
      (by norm_num) (by norm_num)).1.mpr
      ⟨by norm_num, by decide,
        Or.inr ⟨Or.inl ⟨13, by norm_num⟩, Or.inl ⟨12, by norm_num⟩⟩⟩,
    (C5_resolution_policy BareEngine 0 4096 false (by decide) (fun _ => rfl)
      (by norm_num) (by norm_num)).1.mpr
      ⟨by norm_num, by decide,
        Or.inr ⟨Or.inr (Or.inl rfl), Or.inl ⟨12, by norm_num⟩⟩⟩,
    (C5_resolution_policy BareEngine 8193 4096 true (by decide) (fun _ => rfl)
      (by norm_num) (by norm_num)).2.1 (Or.inl (by decide)),
    (C5_resolution_policy BareEngine 4096 3000 false (by decide) (fun _ => rfl)
      (by norm_num) (by norm_num)).2.2.2
      ⟨rfl, fun h => absurd ((FMathIsPowerOfTwo_iff 3000 (by norm_num)).mpr h.2) (by decide)⟩⟩

/-! ## The blocks, one by one -/

@[simp] theorem SetGammaSpace_SRGB (Image : FRuntimeImageData) :
    (SetGammaSpace Image).SRGB = Image.SRGB := rfl

@[simp] theorem SetGammaSpace_GammaSpace (Image : FRuntimeImageData) :
    (SetGammaSpace Image).GammaSpace =
      if Image.SRGB then EGammaSpace.sRGB else EGammaSpace.Linear := rfl

@[simp] theorem SetGammaSpace_TextureSourceFormat (Image : FRuntimeImageData) :
    (SetGammaSpace Image).TextureSourceFormat = Image.TextureSourceFormat := rfl

@[simp] theorem SetGammaSpace_CompressionSettings (Image : FRuntimeImageData) :
    (SetGammaSpace Image).CompressionSettings = Image.CompressionSettings := rfl

@[simp] theorem filter_SniffCalls (Engine : FEngine) (Format : EImageFormat) :
    (SniffCalls Engine Format).filter FCall.IsGetRaw = [] := by
  unfold SniffCalls
  cases Engine.CreateImageWrapper Format <;> simp [FCall.IsGetRaw]

/-- The PNG body always returns; when it returns true the image is as the
selection says. -/
theorem DecodePNG_spec (Engine : FEngine) (P : FLoadedImageWrapper) (s : FImportState) :
    ∃ v s', DecodePNG Engine P s = .Return v s' ∧
      (v = true →
        IsImportResolutionValid Engine P.GetWidth P.GetHeight true = true ∧
          s'.OutImage.TextureSourceFormat = (SelectPNG P.GetFormat P.GetBitDepth).TextureFormat ∧
          s'.OutImage.SRGB = decide ((SelectPNG P.GetFormat P.GetBitDepth).BitDepth < 16) ∧
          (s'.OutImage.GammaSpace =
            if s'.OutImage.SRGB then EGammaSpace.sRGB else EGammaSpace.Linear) ∧
          s'.OutImage.CompressionSettings = s.OutImage.CompressionSettings ∧
          s'.OutError = s.OutError ∧
          s'.Calls = s.Calls ++
            [.GetRaw .PNG (SelectPNG P.GetFormat P.GetBitDepth).Format
                (SelectPNG P.GetFormat P.GetBitDepth).BitDepth,
              .Init2D P.GetWidth P.GetHeight
                (SelectPNG P.GetFormat P.GetBitDepth).TextureFormat]) := by
  unfold DecodePNG
  by_cases hRes : IsImportResolutionValid Engine P.GetWidth P.GetHeight true = true
  · by_cases h16 : (SelectPNG P.GetFormat P.GetBitDepth).BitDepth > 16
    · simp [hRes, h16]
    · cases hRaw : P.GetRaw (SelectPNG P.GetFormat P.GetBitDepth).Format
          (SelectPNG P.GetFormat P.GetBitDepth).BitDepth <;>
        simp [hRes, h16, hRaw, FImportState.Call, Init2D]
  · simp [hRes]

/-- The JPEG body always returns; when it returns true the image is as the
selection says, and the selection is not the invalid format. -/
theorem DecodeJPEG_spec (Engine : FEngine) (P : FLoadedImageWrapper) (s : FImportState) :
    ∃ v s', DecodeJPEG Engine P s = .Return v s' ∧
      (v = true →
        IsImportResolutionValid Engine P.GetWidth P.GetHeight true = true ∧
          (SelectJPEG P.GetFormat P.GetBitDepth).TextureFormat ≠ .TSF_Invalid ∧
          s'.OutImage.TextureSourceFormat = (SelectJPEG P.GetFormat P.GetBitDepth).TextureFormat ∧
          s'.OutImage.SRGB = true ∧
          (s'.OutImage.GammaSpace =
            if s'.OutImage.SRGB then EGammaSpace.sRGB else EGammaSpace.Linear) ∧
          s'.OutImage.CompressionSettings = s.OutImage.CompressionSettings ∧
          s'.OutError = s.OutError ∧
          s'.Calls = s.Calls ++
            [.GetRaw .JPEG (SelectJPEG P.GetFormat P.GetBitDepth).Format
                (SelectJPEG P.GetFormat P.GetBitDepth).BitDepth,
              .Init2D P.GetWidth P.GetHeight
                (SelectJPEG P.GetFormat P.GetBitDepth).TextureFormat]) := by
  unfold DecodeJPEG
  by_cases hRes : IsImportResolutionValid Engine P.GetWidth P.GetHeight true = true
  · by_cases hInv : (SelectJPEG P.GetFormat P.GetBitDepth).TextureFormat = .TSF_Invalid
    · simp [hRes, hInv]
    · cases hRaw : P.GetRaw (SelectJPEG P.GetFormat P.GetBitDepth).Format
          (SelectJPEG P.GetFormat P.GetBitDepth).BitDepth <;>
        simp [hRes, hInv, hRaw, FImportState.Call, Init2D]
  · simp [hRes]

/-- The BMP body always returns; when it returns true the image is BGRA8. -/
theorem DecodeBMP_spec (Engine : FEngine) (P : FLoadedImageWrapper) (s : FImportState) :
    ∃ v s', DecodeBMP Engine P s = .Return v s' ∧
      (v = true →
        IsImportResolutionValid Engine P.GetWidth P.GetHeight true = true ∧
          s'.OutImage.TextureSourceFormat = .TSF_BGRA8 ∧
          s'.OutImage.SRGB = true ∧
          (s'.OutImage.GammaSpace =
            if s'.OutImage.SRGB then EGammaSpace.sRGB else EGammaSpace.Linear) ∧
          s'.OutImage.CompressionSettings = s.OutImage.CompressionSettings ∧
          s'.OutError = s.OutError ∧
          s'.Calls = s.Calls ++
            [.GetRaw .BMP P.GetFormat P.GetBitDepth,
              .Init2D P.GetWidth P.GetHeight .TSF_BGRA8]) := by
  unfold DecodeBMP
  by_cases hRes : IsImportResolutionValid Engine P.GetWidth P.GetHeight true = true
  · cases hRaw : P.GetRaw P.GetFormat P.GetBitDepth <;>
      simp [hRes, hRaw, FImportState.Call, Init2D]
  · simp [hRes]

/-- The EXR body always returns; it returns true only for RGBA at 16 bits, and
then the image is RGBA16F, linear, with the HDR compression setting. -/
theorem DecodeEXR_spec (Engine : FEngine) (P : FLoadedImageWrapper) (s : FImportState) :
    ∃ v s', DecodeEXR Engine P s = .Return v s' ∧
      (v = true →
        IsImportResolutionValid Engine P.GetWidth P.GetHeight true = true ∧
          P.GetFormat = .RGBA ∧ P.GetBitDepth = 16 ∧
          s'.OutImage.TextureSourceFormat = .TSF_RGBA16F ∧
          s'.OutImage.SRGB = false ∧
          s'.OutImage.GammaSpace = .Linear ∧
          s'.OutImage.CompressionSettings = .TC_HDR ∧
          s'.OutError = s.OutError ∧
          s'.Calls = s.Calls ++
            [.GetRaw .EXR .BGRA 16, .Init2D P.GetWidth P.GetHeight .TSF_RGBA16F]) := by
  unfold DecodeEXR
  by_cases hRes : IsImportResolutionValid Engine P.GetWidth P.GetHeight true = true
  · by_cases hSel : P.GetFormat = .RGBA ∧ P.GetBitDepth = 16
    · cases hRaw : P.GetRaw .BGRA 16 <;>
        simp [hRes, hSel, SelectEXR, hRaw, FImportState.Call, Init2D, SetGammaSpace]
    · simp [hRes, hSel, SelectEXR]
  · simp [hRes]

/-- The TGA body returns false with an error, or goes on with the image the
decompressor left, the sRGB flag cleared for a grayscale type 3, and the gamma
space set from the flag. -/
theorem DecodeTGA_spec (Engine : FEngine) (Buffer : List Nat) (s : FImportState) :
    (∃ s', DecodeTGA Engine Buffer s = .Return false s' ∧ s'.OutError ≠ "") ∨
      (IsImportResolutionValid Engine (Engine.TGA Buffer).Width (Engine.TGA Buffer).Height true
            = true ∧
        (Engine.DecompressTGA Buffer s.OutImage s.OutError).1 = true ∧
        DecodeTGA Engine Buffer s =
          .Continue
            ⟨SetGammaSpace
                (if (Engine.DecompressTGA Buffer s.OutImage s.OutError).2.1.CompressionSettings
                      = .TC_Grayscale ∧ (Engine.TGA Buffer).ImageTypeCode = 3 then
                  { (Engine.DecompressTGA Buffer s.OutImage s.OutError).2.1 with SRGB := false }
                else (Engine.DecompressTGA Buffer s.OutImage s.OutError).2.1),
              (Engine.DecompressTGA Buffer s.OutImage s.OutError).2.2,
              s.Calls ++ [.DecompressTGA]⟩) := by
  unfold DecodeTGA
  by_cases hRes :
      IsImportResolutionValid Engine (Engine.TGA Buffer).Width (Engine.TGA Buffer).Height true
        = true
  · by_cases hD : (Engine.DecompressTGA Buffer s.OutImage s.OutError).1 = true
    · right
      simp [hRes, hD, FImportState.Call]
    · left
      simp [hRes, hD, FImportState.Call]
  · left
    simp [hRes, ResolutionError]

/-- The TIFF block returns, or is skipped because the loader is not valid. -/
theorem ImportTIFF_spec (Engine : FEngine) (Buffer : List Nat) (Length : Int)
    (s : FImportState) :
    (Engine.TiffLoaderHelper.IsValid = false ∧ ImportTIFF Engine Buffer Length s = .Continue s) ∨
      (Engine.TiffLoaderHelper.IsValid = true ∧
        ∃ s', ImportTIFF Engine Buffer Length s =
            .Return (Engine.TiffLoaderHelper.Load Buffer Length).1 s' ∧
          ((Engine.TiffLoaderHelper.Load Buffer Length).1 = true →
            s'.OutImage.GammaSpace =
              if s'.OutImage.SRGB then EGammaSpace.sRGB else EGammaSpace.Linear)) := by
  unfold ImportTIFF
  by_cases hV : Engine.TiffLoaderHelper.IsValid = true
  · right
    by_cases hL : (Engine.TiffLoaderHelper.Load Buffer Length).1 = true <;>
      simp [hV, hL, FImportState.Call, Init2D]
  · left
    simp [hV]

/-! ## Pixel formats -/

/-- The rows of the table, one by one: when the reported layout and bit depth
have a row, a successful decode by the first claiming codec gives the pixel
format and sRGB flag of the row and asks `GetRaw` for its layout and depth; a
successful JPEG or BMP decode always has a row. -/
theorem pixel_format_rows (Engine : FEngine) (Buffer : List Nat) (Length : Int)
    (OutImage : FRuntimeImageData) (OutError : String) (Format : EImageFormat)
    (P : FLoadedImageWrapper)
    (hFirst : FirstClaimant Engine Format.Codec Buffer Length)
    (hP : Sniff Engine Format Buffer Length = some P)
    (hBMP : Format = .BMP → P.GetFormat = .BGRA ∧ P.GetBitDepth = 8)
    (hOk : (ImportBufferAsImage Engine Buffer Length OutImage OutError).Value = true) :
    (∀ Row : FTableRow, PixelFormatTable Format P.GetFormat P.GetBitDepth = some Row →
        (ImportBufferAsImage Engine Buffer Length OutImage OutError).OutImage.TextureSourceFormat
            = Row.PixelFormat ∧
          (ImportBufferAsImage Engine Buffer Length OutImage OutError).OutImage.SRGB
            = Row.bSRGB ∧
          (ImportBufferAsImage Engine Buffer Length OutImage OutError).Calls.filter FCall.IsGetRaw
            = [.GetRaw Format Row.Layout Row.BitDepth] ∧
          (ImportBufferAsImage Engine Buffer Length OutImage OutError).OutImage.TextureSourceFormat
            ≠ .TSF_Invalid) ∧
      (Format = .JPEG ∨ Format = .BMP →
        (PixelFormatTable Format P.GetFormat P.GetBitDepth).isSome = true) := by
  obtain ⟨-, hEarlier⟩ := hFirst
  cases Format with
  | PNG =>
    obtain ⟨v, s', hD, hFacts⟩ :=
      DecodePNG_spec Engine P ((⟨OutImage, OutError, []⟩ : FImportState).Call (.SetCompressed .PNG))
    have hr : ImportBufferAsImage Engine Buffer Length OutImage OutError = .Make v s' := by
      simp [ImportBufferAsImage, ImportPNG_of_sniff_some hP, hD, FFlow.Then, FFlow.Result]
    rw [hr] at hOk ⊢
    obtain ⟨-, hF, hS, -, -, -, hC⟩ := hFacts hOk
    refine ⟨?_, by simp⟩
    intro Row hRow
    simp only [FImportResult.Make, hF, hS, hC]
    simp only [PixelFormatTable] at hRow
    split_ifs at hRow with h1 h2 h3 h4 <;> cases hRow <;>
      simp_all [SelectPNG, FImportState.Call, FCall.IsGetRaw]
  | JPEG =>
    have h1 := sniff_none_of_isSome_false (hEarlier .PNG (by decide))
    obtain ⟨v, s', hD, hFacts⟩ :=
      DecodeJPEG_spec Engine P
        ((⟨OutImage, OutError, [] ++ SniffCalls Engine .PNG⟩ : FImportState).Call
          (.SetCompressed .JPEG))
    have hr : ImportBufferAsImage Engine Buffer Length OutImage OutError = .Make v s' := by
      simp only [ImportBufferAsImage, ImportPNG_of_sniff_none h1, ImportJPEG_of_sniff_some hP, hD,
        FFlow.Then, FFlow.Result]
    rw [hr] at hOk ⊢
    obtain ⟨-, hNe, hF, hS, -, -, -, hC⟩ := hFacts hOk
    constructor
    · intro Row hRow
      simp only [FImportResult.Make, hF, hS, hC]
      simp only [PixelFormatTable] at hRow
      split_ifs at hRow with h1 h2 <;> cases hRow <;>
        simp_all [SelectJPEG, FImportState.Call, FCall.IsGetRaw]
    · intro _
      simp only [PixelFormatTable]
      unfold SelectJPEG at hNe
      split_ifs at hNe ⊢ <;> simp_all
  | BMP =>
    have h1 := sniff_none_of_isSome_false (hEarlier .PNG (by decide))
    have h2 := sniff_none_of_isSome_false (hEarlier .JPEG (by decide))
    obtain ⟨v, s', hD, hFacts⟩ :=
      DecodeBMP_spec Engine P
        ((⟨OutImage, OutError, ([] ++ SniffCalls Engine .PNG) ++ SniffCalls Engine .JPEG⟩ :
          FImportState).Call (.SetCompressed .BMP))
    have hr : ImportBufferAsImage Engine Buffer Length OutImage OutError = .Make v s' := by
      simp only [ImportBufferAsImage, ImportPNG_of_sniff_none h1, ImportJPEG_of_sniff_none h2,
        ImportBMP_of_sniff_some hP, hD, FFlow.Then, FFlow.Result]
    rw [hr] at hOk ⊢
    obtain ⟨-, hF, hS, -, -, -, hC⟩ := hFacts hOk
    refine ⟨?_, by simp [PixelFormatTable]⟩
    intro Row hRow
    simp only [FImportResult.Make, hF, hS, hC]
    simp only [PixelFormatTable] at hRow
    cases hRow
    obtain ⟨hL, hB⟩ := hBMP rfl
    simp [FImportState.Call, FCall.IsGetRaw, hL, hB]
  | EXR => simp [PixelFormatTable]

theorem PixelFormatTable_depth {Format : EImageFormat} {Layout : ERGBFormat} {BitDepth : Int}
    {Row : FTableRow} (h : PixelFormatTable Format Layout BitDepth = some Row) :
    Row.BitDepth = 8 ∨ Row.BitDepth = 16 := by
  cases Format <;> simp only [PixelFormatTable] at h
  · split_ifs at h <;> cases h <;> simp
  · split_ifs at h <;> cases h <;> simp
  · cases h
    simp
  · cases h

/-- C7, as stated, fails: an EXR that reports RGBA at 32 bits is rejected
without a pixel-copy call, but the error message does not name the depth. -/
theorem C7_counterexample_EXR_32_bit :
    FirstClaimant (WrapperEngine .EXR (SoundImage 32 32 32 .RGBA [0])) .EXR [118, 47, 49, 1] 4 ∧
      ResolutionPasses (WrapperEngine .EXR (SoundImage 32 32 32 .RGBA [0])) .EXR
        [118, 47, 49, 1] 4 = true ∧
      (ImportBufferAsImage (WrapperEngine .EXR (SoundImage 32 32 32 .RGBA [0])) [118, 47, 49, 1] 4
          BlankImage "").Value = false ∧
      (ImportBufferAsImage (WrapperEngine .EXR (SoundImage 32 32 32 .RGBA [0])) [118, 47, 49, 1] 4
          BlankImage "").OutError = "EXR file contains data in an unsupported format." ∧
      ¬Names
          (ImportBufferAsImage (WrapperEngine .EXR (SoundImage 32 32 32 .RGBA [0]))
            [118, 47, 49, 1] 4 BlankImage "").OutError 32 := by
  unfold Names
  decide

/-- C7, amended. For every buffer whose first claiming codec is PNG, JPEG or EXR,
whose size passes the resolution policy and whose reported layout and depth the
block rejects (PNG deeper than 16 bits; JPEG other than Gray or RGBA at 8 bits
or less; EXR other than RGBA at 16 bits), `ImportBufferAsImage` returns false
with the block's own non-empty message, makes no pixel-copy call and leaves the
image untouched; the JPEG message names the reported bit depth. -/
theorem C7_unsupported_depth_rejected (Engine : FEngine) (Buffer : List Nat) (Length : Int)
    (OutImage : FRuntimeImageData) (OutError : String) (Format : EImageFormat)
    (P : FLoadedImageWrapper)
    (hFirst : FirstClaimant Engine Format.Codec Buffer Length)
    (hP : Sniff Engine Format Buffer Length = some P)
    (hRes : IsImportResolutionValid Engine P.GetWidth P.GetHeight true = true)
    (hUn : Unsupported Format P.GetFormat P.GetBitDepth = true) :
    (ImportBufferAsImage Engine Buffer Length OutImage OutError).Value = false ∧
      (ImportBufferAsImage Engine Buffer Length OutImage OutError).OutError
        = UnsupportedMessage Format P.GetBitDepth ∧
      (ImportBufferAsImage Engine Buffer Length OutImage OutError).OutError ≠ "" ∧
      (∀ c ∈ (ImportBufferAsImage Engine Buffer Length OutImage OutError).Calls,
        c.IsPixelCopy = false) ∧
      (ImportBufferAsImage Engine Buffer Length OutImage OutError).OutImage = OutImage ∧
      (Format = .JPEG →
        Names (ImportBufferAsImage Engine Buffer Length OutImage OutError).OutError
          P.GetBitDepth) := by
  obtain ⟨-, hEarlier⟩ := hFirst
  cases Format with
  | BMP => simp [Unsupported] at hUn
  | PNG =>
    simp only [Unsupported, decide_eq_true_eq] at hUn
    have hSel : (SelectPNG P.GetFormat P.GetBitDepth).BitDepth > 16 := by
      unfold SelectPNG
      split_ifs <;> first | omega | exact hUn
    simp [ImportBufferAsImage, ImportPNG_of_sniff_some hP, DecodePNG, hRes, hSel,
      FFlow.Then, FFlow.Result, FImportResult.Make, FImportState.Call, FCall.IsPixelCopy,
      UnsupportedMessage]
  | JPEG =>
    have h1 := sniff_none_of_isSome_false (hEarlier .PNG (by decide))
    have hSel : SelectJPEG P.GetFormat P.GetBitDepth = ⟨.TSF_Invalid, P.GetFormat, P.GetBitDepth⟩ := by
      unfold SelectJPEG
      simp only [Unsupported] at hUn
      split_ifs <;> simp_all
    have hr :
        ImportBufferAsImage Engine Buffer Length OutImage OutError =
          ⟨false, OutImage, UnsupportedMessage .JPEG P.GetBitDepth,
            SniffCalls Engine .PNG ++ [.SetCompressed .JPEG]⟩ := by
      simp [ImportBufferAsImage, ImportPNG_of_sniff_none h1, ImportJPEG_of_sniff_some hP,
        DecodeJPEG, hRes, hSel, FFlow.Then, FFlow.Result, FImportResult.Make, FImportState.Call,
        UnsupportedMessage]
    rw [hr]
    refine ⟨rfl, rfl, ?_, ?_, rfl, fun _ => ?_⟩
    · simp [UnsupportedMessage]
    · simp [FCall.IsPixelCopy, or_imp, forall_and]
    · unfold Names UnsupportedMessage
      rw [String.data_append]
      exact (List.suffix_append _ _).isInfix
  | EXR =>
    have h1 := sniff_none_of_isSome_false (hEarlier .PNG (by decide))
    have h2 := sniff_none_of_isSome_false (hEarlier .JPEG (by decide))
    have h3 := sniff_none_of_isSome_false (hEarlier .BMP (by decide))
    have h4 : TGAHeaderTest Engine Buffer Length = false := hEarlier .TGA (by decide)
    have hSel : SelectEXR P.GetFormat P.GetBitDepth = ⟨.TSF_Invalid, P.GetFormat, P.GetBitDepth⟩ := by
      unfold SelectEXR
      simp only [Unsupported] at hUn
      split_ifs <;> simp_all
    simp [ImportBufferAsImage, ImportPNG_of_sniff_none h1, ImportJPEG_of_sniff_none h2,
      ImportBMP_of_sniff_none h3, ImportTGA_of_not_claims h4, ImportEXR_of_sniff_some hP,
      DecodeEXR, hRes, hSel, FFlow.Then, FFlow.Result, FImportResult.Make, FImportState.Call,
      FCall.IsPixelCopy, UnsupportedMessage, or_imp, forall_and]

/-- Witness of C7: a JPEG that reports RGBA at 12 bits. -/
theorem C7_unsupported_depth_rejected_witness :
    (ImportBufferAsImage (WrapperEngine .JPEG (SoundImage 32 32 12 .RGBA [0])) [255, 216, 255] 3
          BlankImage "").Value = false ∧
      (ImportBufferAsImage (WrapperEngine .JPEG (SoundImage 32 32 12 .RGBA [0])) [255, 216, 255] 3
          BlankImage "").OutError =
        "JPEG file contains data in an unsupported format. Bit depth: 12" :=
  have h :=
    C7_unsupported_depth_rejected (WrapperEngine .JPEG (SoundImage 32 32 12 .RGBA [0]))
      [255, 216, 255] 3 BlankImage "" .JPEG (SoundImage 32 32 12 .RGBA [0])
      (by decide) (by rfl) (by decide) (by decide)
  ⟨h.1, h.2.1.trans (by decide)⟩


/-! ## The paths on which the function returns true -/

/-- The EXR and TIFF blocks, entered in state `s`: when the function returns
true, the EXR block decoded an RGBA image at 16 bits, or the TIFF loader loaded
the buffer, or neither block claimed it and the state is unchanged. -/
theorem EXR_TIFF_success (Engine : FEngine) (Buffer : List Nat) (Length : Int)
    (s : FImportState)
    (hOk :
      ((ImportEXR Engine Buffer Length s).Then fun s =>
        ImportTIFF Engine Buffer Length s).Result.Value = true) :
    (∃ P, Sniff Engine .EXR Buffer Length = some P ∧ P.GetFormat = .RGBA ∧ P.GetBitDepth = 16 ∧
        ((ImportEXR Engine Buffer Length s).Then fun s =>
            ImportTIFF Engine Buffer Length s).Result.OutImage.TextureSourceFormat
          = .TSF_RGBA16F ∧
        ((ImportEXR Engine Buffer Length s).Then fun s =>
            ImportTIFF Engine Buffer Length s).Result.OutImage.SRGB = false ∧
        ((ImportEXR Engine Buffer Length s).Then fun s =>
            ImportTIFF Engine Buffer Length s).Result.OutImage.GammaSpace = .Linear ∧
        ((ImportEXR Engine Buffer Length s).Then fun s =>
            ImportTIFF Engine Buffer Length s).Result.OutImage.CompressionSettings = .TC_HDR) ∨
      (Sniff Engine .EXR Buffer Length = none ∧ Claims Engine .TIFF Buffer Length = true ∧
        GammaFromSRGB
          ((ImportEXR Engine Buffer Length s).Then fun s =>
            ImportTIFF Engine Buffer Length s).Result.OutImage) ∨
      (Sniff Engine .EXR Buffer Length = none ∧ Engine.TiffLoaderHelper.IsValid = false ∧
        ((ImportEXR Engine Buffer Length s).Then fun s =>
            ImportTIFF Engine Buffer Length s).Result.OutImage = s.OutImage ∧
        ((ImportEXR Engine Buffer Length s).Then fun s =>
            ImportTIFF Engine Buffer Length s).Result.OutError = s.OutError) := by
  cases hS : Sniff Engine .EXR Buffer Length with
  | some P =>
    obtain ⟨v, s', hD, hFacts⟩ := DecodeEXR_spec Engine P (s.Call (.SetCompressed .EXR))
    simp only [ImportEXR_of_sniff_some hS, hD, FFlow.Then, FFlow.Result, FImportResult.Make]
      at hOk ⊢
    obtain ⟨-, hF, hB, hT, hSr, hG, hC, -, -⟩ := hFacts hOk
    exact Or.inl ⟨P, rfl, hF, hB, hT, hSr, hG, hC⟩
  | none =>
    right
    simp only [ImportEXR_of_sniff_none hS, FFlow.Then] at hOk ⊢
    rcases ImportTIFF_spec Engine Buffer Length
        ⟨s.OutImage, s.OutError, s.Calls ++ SniffCalls Engine .EXR⟩ with ⟨hV, hT⟩ | ⟨hV, s', hT, hG⟩
    · right
      simp [hT, hV, FFlow.Result, FImportResult.Make]
    · left
      simp only [hT, FFlow.Result, FImportResult.Make] at hOk ⊢
      exact ⟨trivial, by simp [Claims, hV, hOk], hG hOk⟩


/-- The TGA, EXR and TIFF blocks, entered in state `s`: when the function
returns true, the EXR block decoded the buffer, or the TIFF loader did, or
neither claimed it; in the last case the state is the one the TGA block left,
which is `s` itself when the header test failed. -/
theorem TGA_EXR_TIFF_success (Engine : FEngine) (Buffer : List Nat) (Length : Int)
    (s : FImportState) (r : FImportResult)
    (hr : r =
      ((ImportTGA Engine Buffer Length s).Then fun s =>
        (ImportEXR Engine Buffer Length s).Then fun s =>
        ImportTIFF Engine Buffer Length s).Result)
    (hOk : r.Value = true) :
    (∃ P, Sniff Engine .EXR Buffer Length = some P ∧ P.GetFormat = .RGBA ∧ P.GetBitDepth = 16 ∧
        r.OutImage.TextureSourceFormat = .TSF_RGBA16F ∧ r.OutImage.SRGB = false ∧
        r.OutImage.GammaSpace = .Linear ∧ r.OutImage.CompressionSettings = .TC_HDR) ∨
      (Sniff Engine .EXR Buffer Length = none ∧ Claims Engine .TIFF Buffer Length = true ∧
        GammaFromSRGB r.OutImage) ∨
      (Sniff Engine .EXR Buffer Length = none ∧ Engine.TiffLoaderHelper.IsValid = false ∧
        ((TGAHeaderTest Engine Buffer Length = false ∧ r.OutImage = s.OutImage ∧
            r.OutError = s.OutError) ∨
          (TGAHeaderTest Engine Buffer Length = true ∧
            ResolutionPasses Engine .TGA Buffer Length = true ∧
            (Engine.DecompressTGA Buffer s.OutImage s.OutError).1 = true ∧
            r.OutImage =
              SetGammaSpace
                (if (Engine.DecompressTGA Buffer s.OutImage s.OutError).2.1.CompressionSettings
                      = .TC_Grayscale ∧ (Engine.TGA Buffer).ImageTypeCode = 3 then
                  { (Engine.DecompressTGA Buffer s.OutImage s.OutError).2.1 with SRGB := false }
                else (Engine.DecompressTGA Buffer s.OutImage s.OutError).2.1) ∧
            r.OutError = (Engine.DecompressTGA Buffer s.OutImage s.OutError).2.2))) := by
  subst hr
  by_cases hT : TGAHeaderTest Engine Buffer Length = true
  · rcases DecodeTGA_spec Engine Buffer (s.Call .TGAHeaderTest) with
      ⟨s', hD, -⟩ | ⟨hRes, hDec, hD⟩
    · simp [ImportTGA_of_claims hT, hD, FFlow.Then, FFlow.Result, FImportResult.Make] at hOk
    · simp only [ImportTGA_of_claims hT, hD, FFlow.Then] at hOk ⊢
      rcases EXR_TIFF_success Engine Buffer Length _ hOk with h | h | ⟨h1, h2, h3, h4⟩
      · exact Or.inl h
      · exact Or.inr (Or.inl h)
      · refine Or.inr (Or.inr ⟨h1, h2, Or.inr ⟨hT, ?_, hDec, ?_, ?_⟩⟩)
        · simpa [ResolutionPasses, SniffedSize] using hRes
        · simpa [FImportState.Call] using h3
        · simpa [FImportState.Call] using h4
  · have hT' : TGAHeaderTest Engine Buffer Length = false := by simpa using hT
    simp only [ImportTGA_of_not_claims hT', FFlow.Then] at hOk ⊢
    rcases EXR_TIFF_success Engine Buffer Length _ hOk with h | h | ⟨h1, h2, h3, h4⟩
    · exact Or.inl h
    · exact Or.inr (Or.inl h)
    · exact Or.inr (Or.inr ⟨h1, h2, Or.inl ⟨hT', h3, h4⟩⟩)

/-- The paths on which `ImportBufferAsImage` returns true: the PNG, JPEG or BMP
block decoded the buffer (gamma space derived, compression setting as on
entry), or none of them claimed it and the TGA, EXR and TIFF blocks were
entered with the out-parameters as on entry. -/
theorem ImportBufferAsImage_success (Engine : FEngine) (Buffer : List Nat) (Length : Int)
    (OutImage : FRuntimeImageData) (OutError : String)
    (hOk : (ImportBufferAsImage Engine Buffer Length OutImage OutError).Value = true) :
    ((Claims Engine .PNG Buffer Length = true ∨ Claims Engine .JPEG Buffer Length = true ∨
          Claims Engine .BMP Buffer Length = true) ∧
        GammaFromSRGB (ImportBufferAsImage Engine Buffer Length OutImage OutError).OutImage ∧
        (ImportBufferAsImage Engine Buffer Length OutImage OutError).OutImage.CompressionSettings
          = OutImage.CompressionSettings) ∨
      (Claims Engine .PNG Buffer Length = false ∧ Claims Engine .JPEG Buffer Length = false ∧
        Claims Engine .BMP Buffer Length = false ∧
        ∃ Calls,
          ImportBufferAsImage Engine Buffer Length OutImage OutError =
            ((ImportTGA Engine Buffer Length ⟨OutImage, OutError, Calls⟩).Then fun s =>
              (ImportEXR Engine Buffer Length s).Then fun s =>
              ImportTIFF Engine Buffer Length s).Result) := by
  cases h1 : Sniff Engine .PNG Buffer Length with
  | some P =>
    obtain ⟨v, s', hD, hFacts⟩ :=
      DecodePNG_spec Engine P ((⟨OutImage, OutError, []⟩ : FImportState).Call (.SetCompressed .PNG))
    have hr : ImportBufferAsImage Engine Buffer Length OutImage OutError = .Make v s' := by
      simp only [ImportBufferAsImage, ImportPNG_of_sniff_some h1, hD, FFlow.Then, FFlow.Result]
    rw [hr] at hOk ⊢
    obtain ⟨-, -, -, hG, hC, -, -⟩ := hFacts hOk
    exact Or.inl ⟨Or.inl (by simp [Claims, Header, h1]), hG, hC⟩
  | none =>
    cases h2 : Sniff Engine .JPEG Buffer Length with
    | some P =>
      obtain ⟨v, s', hD, hFacts⟩ :=
        DecodeJPEG_spec Engine P
          ((⟨OutImage, OutError, [] ++ SniffCalls Engine .PNG⟩ : FImportState).Call
            (.SetCompressed .JPEG))
      have hr : ImportBufferAsImage Engine Buffer Length OutImage OutError = .Make v s' := by
        simp only [ImportBufferAsImage, ImportPNG_of_sniff_none h1, ImportJPEG_of_sniff_some h2,
          hD, FFlow.Then, FFlow.Result]
      rw [hr] at hOk ⊢
      obtain ⟨-, -, -, -, hG, hC, -, -⟩ := hFacts hOk
      exact Or.inl ⟨Or.inr (Or.inl (by simp [Claims, Header, h2])), hG, hC⟩
    | none =>
      cases h3 : Sniff Engine .BMP Buffer Length with
      | some P =>
        obtain ⟨v, s', hD, hFacts⟩ :=
          DecodeBMP_spec Engine P
            ((⟨OutImage, OutError, ([] ++ SniffCalls Engine .PNG) ++ SniffCalls Engine .JPEG⟩ :
              FImportState).Call (.SetCompressed .BMP))
        have hr : ImportBufferAsImage Engine Buffer Length OutImage OutError = .Make v s' := by
          simp only [ImportBufferAsImage, ImportPNG_of_sniff_none h1, ImportJPEG_of_sniff_none h2,
            ImportBMP_of_sniff_some h3, hD, FFlow.Then, FFlow.Result]
        rw [hr] at hOk ⊢
        obtain ⟨-, -, -, hG, hC, -, -⟩ := hFacts hOk
        exact Or.inl ⟨Or.inr (Or.inr (by simp [Claims, Header, h3])), hG, hC⟩
      | none =>
        refine Or.inr ⟨by simp [Claims, Header, h1], by simp [Claims, Header, h2],
          by simp [Claims, Header, h3],
          ([] ++ SniffCalls Engine .PNG) ++ SniffCalls Engine .JPEG ++ SniffCalls Engine .BMP, ?_⟩
        simp only [ImportBufferAsImage, ImportPNG_of_sniff_none h1, ImportJPEG_of_sniff_none h2,
          ImportBMP_of_sniff_none h3, FFlow.Then]


/-! ## EXR, TGA grayscale and the gamma space -/

/-- C8, as stated, fails in its converse: an RGBA PNG at 8 bits, decoded into an
image that carries the HDR compression setting on entry, is a success of the
PNG block, the EXR block not claiming the buffer, and the result keeps the HDR
setting with pixel format BGRA8. -/
theorem C8_counterexample_PNG_into_HDR_image :
    FirstClaimant (WrapperEngine .PNG (SoundImage 64 64 8 .RGBA [1, 2, 3, 4])) .PNG
        [137, 80, 78, 71] 4 ∧
      Claims (WrapperEngine .PNG (SoundImage 64 64 8 .RGBA [1, 2, 3, 4])) .EXR
        [137, 80, 78, 71] 4 = false ∧
      (ImportBufferAsImage (WrapperEngine .PNG (SoundImage 64 64 8 .RGBA [1, 2, 3, 4]))
          [137, 80, 78, 71] 4 { BlankImage with CompressionSettings := .TC_HDR } "").Value
        = true ∧
      (ImportBufferAsImage (WrapperEngine .PNG (SoundImage 64 64 8 .RGBA [1, 2, 3, 4]))
          [137, 80, 78, 71] 4 { BlankImage with CompressionSettings := .TC_HDR }
          "").OutImage.CompressionSettings = .TC_HDR ∧
      (ImportBufferAsImage (WrapperEngine .PNG (SoundImage 64 64 8 .RGBA [1, 2, 3, 4]))
          [137, 80, 78, 71] 4 { BlankImage with CompressionSettings := .TC_HDR }
          "").OutImage.TextureSourceFormat = .TSF_BGRA8 := by
  decide

/-- C8, amended. Whenever `ImportBufferAsImage` returns true: if the EXR block
decoded the buffer (PNG, JPEG and BMP did not claim it and the EXR sniff
succeeded), the
source is RGBA at 16 bits and the result is RGBA16F, not sRGB, linear, with the
HDR compression setting; and conversely, for an image that did not carry HDR on
entry, a TGA decompressor that does not leave HDR and a buffer the TIFF loader
does not load, a result with the HDR setting comes from the EXR block and has
pixel format RGBA16F. -/
theorem C8_EXR_result_and_HDR (Engine : FEngine) (Buffer : List Nat) (Length : Int)
    (OutImage : FRuntimeImageData) (OutError : String)
    (hOk : (ImportBufferAsImage Engine Buffer Length OutImage OutError).Value = true) :
    (∀ P : FLoadedImageWrapper,
        Claims Engine .PNG Buffer Length = false → Claims Engine .JPEG Buffer Length = false →
        Claims Engine .BMP Buffer Length = false → Sniff Engine .EXR Buffer Length = some P →
        P.GetFormat = .RGBA ∧ P.GetBitDepth = 16 ∧
          (ImportBufferAsImage Engine Buffer Length OutImage OutError).OutImage.TextureSourceFormat
            = .TSF_RGBA16F ∧
          (ImportBufferAsImage Engine Buffer Length OutImage OutError).OutImage.SRGB = false ∧
          (ImportBufferAsImage Engine Buffer Length OutImage OutError).OutImage.GammaSpace
            = .Linear ∧
          (ImportBufferAsImage Engine Buffer Length OutImage OutError).OutImage.CompressionSettings
            = .TC_HDR) ∧
      (OutImage.CompressionSettings ≠ .TC_HDR →
        (Engine.DecompressTGA Buffer OutImage OutError).2.1.CompressionSettings ≠ .TC_HDR →
        Claims Engine .TIFF Buffer Length = false →
        (ImportBufferAsImage Engine Buffer Length OutImage OutError).OutImage.CompressionSettings
          = .TC_HDR →
        Claims Engine .EXR Buffer Length = true ∧
          (ImportBufferAsImage Engine Buffer Length OutImage OutError).OutImage.TextureSourceFormat
            = .TSF_RGBA16F) := by
  rcases ImportBufferAsImage_success Engine Buffer Length OutImage OutError hOk with
    ⟨hCl, -, hC⟩ | ⟨c1, c2, c3, Calls, hEq⟩
  · constructor
    · intro P p1 p2 p3 _
      simp [p1, p2, p3] at hCl
    · intro hIn _ _ hHDR
      rw [hC] at hHDR
      exact absurd hHDR hIn
  · rcases TGA_EXR_TIFF_success Engine Buffer Length ⟨OutImage, OutError, Calls⟩ _ hEq hOk with
      ⟨Q, hQ, hF, hB, hT, hS, hG, hC⟩ | ⟨hN, hTf, -⟩ | ⟨hN, hV, hRest⟩
    · constructor
      · intro P _ _ _ hP
        rw [hQ] at hP
        cases hP
        exact ⟨hF, hB, hT, hS, hG, hC⟩
      · intro _ _ _ _
        exact ⟨by simp [Claims, Header, hQ], hT⟩
    · constructor
      · intro P _ _ _ hP
        rw [hN] at hP
        cases hP
      · intro _ _ hNo _
        rw [hTf] at hNo
        cases hNo
    · constructor
      · intro P _ _ _ hP
        rw [hN] at hP
        cases hP
      · intro hIn hD _ hHDR
        rcases hRest with ⟨-, hI, -⟩ | ⟨-, -, -, hI, -⟩
        · rw [hI] at hHDR
          exact absurd hHDR hIn
        · rw [hI] at hHDR
          simp only [SetGammaSpace_CompressionSettings] at hHDR
          split_ifs at hHDR <;> exact absurd hHDR hD

/-- Witness of C8: an EXR of 32 x 32 pixels, RGBA at 16 bits. -/
theorem C8_EXR_result_and_HDR_witness :
    (ImportBufferAsImage (WrapperEngine .EXR (SoundImage 32 32 16 .RGBA [0, 60])) [118, 47, 49, 1]
          4 BlankImage "").Value = true ∧
      (ImportBufferAsImage (WrapperEngine .EXR (SoundImage 32 32 16 .RGBA [0, 60])) [118, 47, 49, 1]
          4 BlankImage "").OutImage.TextureSourceFormat = .TSF_RGBA16F ∧
      (ImportBufferAsImage (WrapperEngine .EXR (SoundImage 32 32 16 .RGBA [0, 60])) [118, 47, 49, 1]
          4 BlankImage "").OutImage.SRGB = false ∧
      (ImportBufferAsImage (WrapperEngine .EXR (SoundImage 32 32 16 .RGBA [0, 60])) [118, 47, 49, 1]
          4 BlankImage "").OutImage.CompressionSettings = .TC_HDR :=
  have h :=
    (C8_EXR_result_and_HDR (WrapperEngine .EXR (SoundImage 32 32 16 .RGBA [0, 60]))
      [118, 47, 49, 1] 4 BlankImage "" (by decide)).1 (SoundImage 32 32 16 .RGBA [0, 60])
      (by decide) (by decide) (by decide) (by rfl)
  ⟨by decide, h.2.2.1, h.2.2.2.1, h.2.2.2.2.2⟩

/-- C9, as stated, fails: a grayscale TGA (type 3) whose decompressor leaves the
sRGB flag set and the default compression setting is decoded successfully and
keeps the sRGB flag and the sRGB gamma space. -/
theorem C9_counterexample_grayscale_default_compression :
    FirstClaimant (GrayscaleTGAEngine .TC_Default) .TGA GrayscaleTGA 18 ∧
      ((GrayscaleTGAEngine .TC_Default).TGA GrayscaleTGA).ColorMapType = 0 ∧
      ((GrayscaleTGAEngine .TC_Default).TGA GrayscaleTGA).ImageTypeCode = 3 ∧
      (ImportBufferAsImage (GrayscaleTGAEngine .TC_Default) GrayscaleTGA 18
          BlankImage "").Value = true ∧
      (ImportBufferAsImage (GrayscaleTGAEngine .TC_Default) GrayscaleTGA 18
          BlankImage "").OutImage.SRGB = true ∧
      (ImportBufferAsImage (GrayscaleTGAEngine .TC_Default) GrayscaleTGA 18
          BlankImage "").OutImage.GammaSpace = .sRGB := by
  decide

/-- C9, amended. For every buffer that is decoded successfully as a TGA (the TGA
block is the first to claim it, neither the EXR block nor the TIFF loader
claims it afterwards, and the function returns true): `DecompressTGA` succeeded;
when the image type code is 3 and the decompressor left the grayscale
compression setting, the result is not sRGB and its gamma space is linear,
whatever sRGB flag the decompressor left; in every other case the sRGB flag is
the one the decompressor left; the gamma space is derived from the flag. -/
theorem C9_TGA_grayscale_is_linear (Engine : FEngine) (Buffer : List Nat) (Length : Int)
    (OutImage : FRuntimeImageData) (OutError : String)
    (hFirst : FirstClaimant Engine .TGA Buffer Length)
    (hEXR : Claims Engine .EXR Buffer Length = false)
    (hTIFF : Claims Engine .TIFF Buffer Length = false)
    (hOk : (ImportBufferAsImage Engine Buffer Length OutImage OutError).Value = true) :
    (Engine.DecompressTGA Buffer OutImage OutError).1 = true ∧
      ((Engine.DecompressTGA Buffer OutImage OutError).2.1.CompressionSettings = .TC_Grayscale ∧
          (Engine.TGA Buffer).ImageTypeCode = 3 →
        (ImportBufferAsImage Engine Buffer Length OutImage OutError).OutImage.SRGB = false ∧
          (ImportBufferAsImage Engine Buffer Length OutImage OutError).OutImage.GammaSpace
            = .Linear) ∧
      (¬((Engine.DecompressTGA Buffer OutImage OutError).2.1.CompressionSettings = .TC_Grayscale ∧
            (Engine.TGA Buffer).ImageTypeCode = 3) →
        (ImportBufferAsImage Engine Buffer Length OutImage OutError).OutImage.SRGB
          = (Engine.DecompressTGA Buffer OutImage OutError).2.1.SRGB) ∧
      GammaFromSRGB (ImportBufferAsImage Engine Buffer Length OutImage OutError).OutImage := by
  obtain ⟨hT, hEarlier⟩ := hFirst
  have c1 : Claims Engine .PNG Buffer Length = false := hEarlier .PNG (by decide)
  have c2 : Claims Engine .JPEG Buffer Length = false := hEarlier .JPEG (by decide)
  have c3 : Claims Engine .BMP Buffer Length = false := hEarlier .BMP (by decide)
  rcases ImportBufferAsImage_success Engine Buffer Length OutImage OutError hOk with
    ⟨hCl, -, -⟩ | ⟨-, -, -, Calls, hEq⟩
  · simp [c1, c2, c3] at hCl
  · rcases TGA_EXR_TIFF_success Engine Buffer Length ⟨OutImage, OutError, Calls⟩ _ hEq hOk with
      ⟨Q, hQ, -⟩ | ⟨-, hTf, -⟩ | ⟨-, -, hRest⟩
    · simp [Claims, Header, hQ] at hEXR
    · rw [hTf] at hTIFF
      cases hTIFF
    · rcases hRest with ⟨hNo, -, -⟩ | ⟨-, -, hD, hI, -⟩
      · simp only [Claims] at hT
        rw [hNo] at hT
        cases hT
      · rw [hI]
        refine ⟨hD, ?_, ?_, ?_⟩
        · intro h
          simp [h]
        · intro h
          simp [h]
        · simp [GammaFromSRGB]

/-- Witness of C9: a grayscale TGA whose decompressor leaves the sRGB flag set
and the grayscale compression setting. -/
theorem C9_TGA_grayscale_is_linear_witness :
    (ImportBufferAsImage (GrayscaleTGAEngine .TC_Grayscale) GrayscaleTGA 18
          BlankImage "").OutImage.SRGB = false ∧
      (ImportBufferAsImage (GrayscaleTGAEngine .TC_Grayscale) GrayscaleTGA 18
          BlankImage "").OutImage.GammaSpace = .Linear :=
  (C9_TGA_grayscale_is_linear (GrayscaleTGAEngine .TC_Grayscale) GrayscaleTGA 18 BlankImage ""
      (by decide) (by decide) (by decide) (by decide)).2.1 ⟨by decide, by decide⟩

/-- C10. Whenever `ImportBufferAsImage` returns true for a buffer that some codec
(PNG, JPEG, BMP, TGA, EXR or TIFF) claims, the gamma space of the output image
is sRGB if its sRGB flag is set and linear otherwise. -/
theorem C10_gamma_space_follows_sRGB (Engine : FEngine) (Buffer : List Nat) (Length : Int)
    (OutImage : FRuntimeImageData) (OutError : String)
    (hOk : (ImportBufferAsImage Engine Buffer Length OutImage OutError).Value = true)
    (hClaimed : ∃ c : ECodec, Claims Engine c Buffer Length = true) :
    GammaFromSRGB (ImportBufferAsImage Engine Buffer Length OutImage OutError).OutImage ∧
      ((ImportBufferAsImage Engine Buffer Length OutImage OutError).OutImage.GammaSpace = .sRGB ↔
        (ImportBufferAsImage Engine Buffer Length OutImage OutError).OutImage.SRGB = true) := by
  have hMain :
      GammaFromSRGB (ImportBufferAsImage Engine Buffer Length OutImage OutError).OutImage := by
    rcases ImportBufferAsImage_success Engine Buffer Length OutImage OutError hOk with
      ⟨-, hG, -⟩ | ⟨c1, c2, c3, Calls, hEq⟩
    · exact hG
    · rcases TGA_EXR_TIFF_success Engine Buffer Length ⟨OutImage, OutError, Calls⟩ _ hEq hOk with
        ⟨Q, -, -, -, -, hS, hG, -⟩ | ⟨-, -, hG⟩ | ⟨hN, hV, hRest⟩
      · simp [GammaFromSRGB, hS, hG]
      · exact hG
      · rcases hRest with ⟨hNo, -, -⟩ | ⟨-, -, -, hI, -⟩
        · obtain ⟨c, hc⟩ := hClaimed
          cases c <;> simp_all [Claims, Header]
        · rw [hI]
          simp [GammaFromSRGB]
  refine ⟨hMain, ?_⟩
  unfold GammaFromSRGB at hMain
  rw [hMain]
  cases (ImportBufferAsImage Engine Buffer Length OutImage OutError).OutImage.SRGB <;> simp

/-- Witness of C10: an RGBA PNG at 16 bits, decoded into an image whose gamma
space was sRGB on entry. -/
theorem C10_gamma_space_follows_sRGB_witness :
    BlankImage.GammaSpace = .sRGB ∧
      (ImportBufferAsImage (WrapperEngine .PNG (SoundImage 4 4 16 .RGBA [0, 1])) [137, 80, 78, 71]
          4 BlankImage "").OutImage.SRGB = false ∧
      GammaFromSRGB
        (ImportBufferAsImage (WrapperEngine .PNG (SoundImage 4 4 16 .RGBA [0, 1]))
          [137, 80, 78, 71] 4 BlankImage "").OutImage :=
  ⟨by decide, by decide,
    (C10_gamma_space_follows_sRGB (WrapperEngine .PNG (SoundImage 4 4 16 .RGBA [0, 1]))
      [137, 80, 78, 71] 4 BlankImage "" (by decide) ⟨.PNG, by decide⟩).1⟩


/-! ## The priority order for the wrapper-based codecs -/

/-- The PNG body returns, and the calls it adds consult PNG only. -/
theorem DecodePNG_calls (Engine : FEngine) (P : FLoadedImageWrapper) (s : FImportState) :
    ∃ v s', DecodePNG Engine P s = .Return v s' ∧
      ∀ c ∈ s'.Calls, c ∈ s.Calls ∨ c.Consults = some .PNG ∨ c.Consults = none := by
  unfold DecodePNG
  by_cases hRes : IsImportResolutionValid Engine P.GetWidth P.GetHeight true = true
  · by_cases hSel : (SelectPNG P.GetFormat P.GetBitDepth).BitDepth > 16
    · simp only [hRes, hSel, Bool.not_true, Bool.false_eq_true, if_false, if_true]
      exact ⟨_, _, rfl, fun c hc => Or.inl hc⟩
    · cases hRaw : P.GetRaw (SelectPNG P.GetFormat P.GetBitDepth).Format
        (SelectPNG P.GetFormat P.GetBitDepth).BitDepth with
      | none =>
        simp only [hRes, hSel, hRaw, Bool.not_true, Bool.false_eq_true, if_false]
        refine ⟨_, _, rfl, fun c hc => ?_⟩
        simp only [FImportState.Call, List.mem_append, List.mem_singleton] at hc
        rcases hc with hc | hc
        · exact Or.inl hc
        · subst hc
          simp [FCall.Consults, EImageFormat.Codec]
      | some Raw =>
        simp only [hRes, hSel, hRaw, Bool.not_true, Bool.false_eq_true, if_false]
        refine ⟨_, _, rfl, fun c hc => ?_⟩
        simp only [FImportState.Call, List.mem_append, List.mem_singleton] at hc
        rcases hc with (hc | hc) | hc
        · exact Or.inl hc
        · subst hc
          simp [FCall.Consults, EImageFormat.Codec]
        · subst hc
          simp [FCall.Consults]
  · simp only [hRes, Bool.not_false, if_true]
    exact ⟨_, _, rfl, fun c hc => Or.inl hc⟩

/-- The JPEG body returns, and the calls it adds consult JPEG only. -/
theorem DecodeJPEG_calls (Engine : FEngine) (P : FLoadedImageWrapper) (s : FImportState) :
    ∃ v s', DecodeJPEG Engine P s = .Return v s' ∧
      ∀ c ∈ s'.Calls, c ∈ s.Calls ∨ c.Consults = some .JPEG ∨ c.Consults = none := by
  unfold DecodeJPEG
  by_cases hRes : IsImportResolutionValid Engine P.GetWidth P.GetHeight true = true
  · by_cases hSel : (SelectJPEG P.GetFormat P.GetBitDepth).TextureFormat = .TSF_Invalid
    · simp only [hRes, hSel, Bool.not_true, Bool.false_eq_true, if_false, if_true]
      exact ⟨_, _, rfl, fun c hc => Or.inl hc⟩
    · cases hRaw : P.GetRaw (SelectJPEG P.GetFormat P.GetBitDepth).Format
        (SelectJPEG P.GetFormat P.GetBitDepth).BitDepth with
      | none =>
        simp only [hRes, hSel, hRaw, Bool.not_true, Bool.false_eq_true, if_false]
        refine ⟨_, _, rfl, fun c hc => ?_⟩
        simp only [FImportState.Call, List.mem_append, List.mem_singleton] at hc
        rcases hc with hc | hc
        · exact Or.inl hc
        · subst hc
          simp [FCall.Consults, EImageFormat.Codec]
      | some Raw =>
        simp only [hRes, hSel, hRaw, Bool.not_true, Bool.false_eq_true, if_false]
        refine ⟨_, _, rfl, fun c hc => ?_⟩
        simp only [FImportState.Call, List.mem_append, List.mem_singleton] at hc
        rcases hc with (hc | hc) | hc
        · exact Or.inl hc
        · subst hc
          simp [FCall.Consults, EImageFormat.Codec]
        · subst hc
          simp [FCall.Consults]
  · simp only [hRes, Bool.not_false, if_true]
    exact ⟨_, _, rfl, fun c hc => Or.inl hc⟩

/-- The BMP body returns, and the calls it adds consult BMP only. -/
theorem DecodeBMP_calls (Engine : FEngine) (P : FLoadedImageWrapper) (s : FImportState) :
    ∃ v s', DecodeBMP Engine P s = .Return v s' ∧
      ∀ c ∈ s'.Calls, c ∈ s.Calls ∨ c.Consults = some .BMP ∨ c.Consults = none := by
  unfold DecodeBMP
  by_cases hRes : IsImportResolutionValid Engine P.GetWidth P.GetHeight true = true
  · cases hRaw : P.GetRaw P.GetFormat P.GetBitDepth with
    | none =>
      simp only [hRes, hRaw, Bool.not_true, Bool.false_eq_true, if_false]
      refine ⟨_, _, rfl, fun c hc => ?_⟩
      simp only [FImportState.Call, List.mem_append, List.mem_singleton] at hc
      rcases hc with hc | hc
      · exact Or.inl hc
      · subst hc
        simp [FCall.Consults, EImageFormat.Codec]
    | some Raw =>
      simp only [hRes, hRaw, Bool.not_true, Bool.false_eq_true, if_false]
      refine ⟨_, _, rfl, fun c hc => ?_⟩
      simp only [FImportState.Call, List.mem_append, List.mem_singleton] at hc
      rcases hc with (hc | hc) | hc
      · exact Or.inl hc
      · subst hc
        simp [FCall.Consults, EImageFormat.Codec]
      · subst hc
        simp [FCall.Consults]
  · simp only [hRes, Bool.not_false, if_true]
    exact ⟨_, _, rfl, fun c hc => Or.inl hc⟩

/-- The EXR body returns, and the calls it adds consult EXR only. -/
theorem DecodeEXR_calls (Engine : FEngine) (P : FLoadedImageWrapper) (s : FImportState) :
    ∃ v s', DecodeEXR Engine P s = .Return v s' ∧
      ∀ c ∈ s'.Calls, c ∈ s.Calls ∨ c.Consults = some .EXR ∨ c.Consults = none := by
  unfold DecodeEXR
  by_cases hRes : IsImportResolutionValid Engine P.GetWidth P.GetHeight true = true
  · by_cases hSel : (SelectEXR P.GetFormat P.GetBitDepth).TextureFormat = .TSF_Invalid
    · simp only [hRes, hSel, Bool.not_true, Bool.false_eq_true, if_false, if_true]
      exact ⟨_, _, rfl, fun c hc => Or.inl hc⟩
    · cases hRaw : P.GetRaw (SelectEXR P.GetFormat P.GetBitDepth).Format
        (SelectEXR P.GetFormat P.GetBitDepth).BitDepth with
      | none =>
        simp only [hRes, hSel, hRaw, Bool.not_true, Bool.false_eq_true, if_false]
        refine ⟨_, _, rfl, fun c hc => ?_⟩
        simp only [FImportState.Call, List.mem_append, List.mem_singleton] at hc
        rcases hc with hc | hc
        · exact Or.inl hc
        · subst hc
          simp [FCall.Consults, EImageFormat.Codec]
      | some Raw =>
        simp only [hRes, hSel, hRaw, Bool.not_true, Bool.false_eq_true, if_false]
        refine ⟨_, _, rfl, fun c hc => ?_⟩
        simp only [FImportState.Call, List.mem_append, List.mem_singleton] at hc
        rcases hc with (hc | hc) | hc
        · exact Or.inl hc
        · subst hc
          simp [FCall.Consults, EImageFormat.Codec]
        · subst hc
          simp [FCall.Consults]
  · simp only [hRes, Bool.not_false, if_true]
    exact ⟨_, _, rfl, fun c hc => Or.inl hc⟩

/-- For the wrapper-based codecs the priority order holds: when PNG, JPEG, BMP or
EXR is the first codec to claim the buffer, no codec later in the order is
consulted.  (The TGA block is the exception: it has no `return` after a
successful decode.) -/
theorem wrapper_claim_stops_the_search (Engine : FEngine) (Buffer : List Nat) (Length : Int)
    (OutImage : FRuntimeImageData) (OutError : String) (Format : EImageFormat)
    (hFirst : FirstClaimant Engine Format.Codec Buffer Length) :
    ∀ c ∈ (ImportBufferAsImage Engine Buffer Length OutImage OutError).Calls,
      ∀ k : ECodec, c.Consults = some k → k.Rank ≤ Format.Codec.Rank := by
  obtain ⟨hClaim, hEarlier⟩ := hFirst
  cases Format with
  | PNG =>
    obtain ⟨P, hP⟩ := Option.isSome_iff_exists.mp hClaim
    simp only [EImageFormat.Codec, Header] at hP
    obtain ⟨v, s', hD, hCalls⟩ :=
      DecodePNG_calls Engine P ((⟨OutImage, OutError, []⟩ : FImportState).Call (.SetCompressed .PNG))
    simp only [ImportBufferAsImage, ImportPNG_of_sniff_some hP, hD, FFlow.Then, FFlow.Result,
      FImportResult.Make]
    intro c hc k hk
    rcases hCalls c hc with h | h | h
    · simp [FImportState.Call] at h
      subst h
      cases hk
      decide
    · rw [h] at hk
      cases hk
      decide
    · rw [h] at hk
      cases hk
  | JPEG =>
    have h1 := sniff_none_of_isSome_false (hEarlier .PNG (by decide))
    obtain ⟨P, hP⟩ := Option.isSome_iff_exists.mp hClaim
    simp only [EImageFormat.Codec, Header] at hP
    obtain ⟨v, s', hD, hCalls⟩ :=
      DecodeJPEG_calls Engine P
        ((⟨OutImage, OutError, [] ++ SniffCalls Engine .PNG⟩ : FImportState).Call
          (.SetCompressed .JPEG))
    simp only [ImportBufferAsImage, ImportPNG_of_sniff_none h1, ImportJPEG_of_sniff_some hP, hD,
      FFlow.Then, FFlow.Result, FImportResult.Make]
    intro c hc k hk
    rcases hCalls c hc with h | h | h
    · simp [FImportState.Call] at h
      rcases h with ⟨h, -⟩ | h <;> subst h <;> cases hk <;> decide
    · rw [h] at hk
      cases hk
      decide
    · rw [h] at hk
      cases hk
  | BMP =>
    have h1 := sniff_none_of_isSome_false (hEarlier .PNG (by decide))
    have h2 := sniff_none_of_isSome_false (hEarlier .JPEG (by decide))
    obtain ⟨P, hP⟩ := Option.isSome_iff_exists.mp hClaim
    simp only [EImageFormat.Codec, Header] at hP
    obtain ⟨v, s', hD, hCalls⟩ :=
      DecodeBMP_calls Engine P
        ((⟨OutImage, OutError, ([] ++ SniffCalls Engine .PNG) ++ SniffCalls Engine .JPEG⟩ :
          FImportState).Call (.SetCompressed .BMP))
    simp only [ImportBufferAsImage, ImportPNG_of_sniff_none h1, ImportJPEG_of_sniff_none h2,
      ImportBMP_of_sniff_some hP, hD, FFlow.Then, FFlow.Result, FImportResult.Make]
    intro c hc k hk
    rcases hCalls c hc with h | h | h
    · simp [FImportState.Call] at h
      rcases h with ⟨h, -⟩ | ⟨h, -⟩ | h <;> subst h <;> cases hk <;> decide
    · rw [h] at hk
      cases hk
      decide
    · rw [h] at hk
      cases hk
  | EXR =>
    have h1 := sniff_none_of_isSome_false (hEarlier .PNG (by decide))
    have h2 := sniff_none_of_isSome_false (hEarlier .JPEG (by decide))
    have h3 := sniff_none_of_isSome_false (hEarlier .BMP (by decide))
    have h4 : TGAHeaderTest Engine Buffer Length = false := hEarlier .TGA (by decide)
    obtain ⟨P, hP⟩ := Option.isSome_iff_exists.mp hClaim
    simp only [EImageFormat.Codec, Header] at hP
    obtain ⟨v, s', hD, hCalls⟩ :=
      DecodeEXR_calls Engine P
        ((⟨OutImage, OutError,
            (([] ++ SniffCalls Engine .PNG) ++ SniffCalls Engine .JPEG ++ SniffCalls Engine .BMP)
              ++ [.TGAHeaderTest]⟩ : FImportState).Call (.SetCompressed .EXR))
    simp only [ImportBufferAsImage, ImportPNG_of_sniff_none h1, ImportJPEG_of_sniff_none h2,
      ImportBMP_of_sniff_none h3, ImportTGA_of_not_claims h4, ImportEXR_of_sniff_some hP, hD,
      FFlow.Then, FFlow.Result, FImportResult.Make]
    intro c hc k hk
    rcases hCalls c hc with h | h | h
    · simp [FImportState.Call] at h
      rcases h with ⟨h, -⟩ | ⟨h, -⟩ | ⟨h, -⟩ | h | h <;> subst h <;> cases hk <;> decide
    · rw [h] at hk
      cases hk
      decide
    · rw [h] at hk
      cases hk

/-! ## Import from a file -/

theorem size_message_eq (ImageFilename : String) :
    "Image filesize > " ++ toString MAX_FILESIZE_BYTES ++ " MBs): " ++ ImageFilename =
      "Image filesize > 999999999 MBs): " ++ ImageFilename := by
  have h : "Image filesize > " ++ toString MAX_FILESIZE_BYTES ++ " MBs): " =
      "Image filesize > 999999999 MBs): " := by decide
  rw [h]

theorem file_messages_distinct (ImageFilename : String) :
    "Image does not exist: " ++ ImageFilename ≠
        "Image filesize > 999999999 MBs): " ++ ImageFilename ∧
      "Image does not exist: " ++ ImageFilename ≠ "Image I/O error: " ++ ImageFilename ∧
      "Image filesize > 999999999 MBs): " ++ ImageFilename ≠
        "Image I/O error: " ++ ImageFilename := by
  refine ⟨?_, ?_, ?_⟩ <;>
    · intro h
      have hd := congrArg String.data h
      simp [String.data_append] at hd

/-- The one other way out of `ImportFileAsImage`: the `check` of line 390 fails
when the file exists and the size query answers `INDEX_NONE`. -/
theorem ImportFileAsImage_check (Files : FFileSystem) (Engine : FEngine)
    (ImageFilename : String) (OutImage : FRuntimeImageData) (OutError : String) :
    ImportFileAsImage Files Engine ImageFilename OutImage OutError = none ↔
      (Files.FileExists ImageFilename = true ∧ Files.FileSize ImageFilename = INDEX_NONE) := by
  unfold ImportFileAsImage
  by_cases hE : Files.FileExists ImageFilename = true
  · by_cases hN : Files.FileSize ImageFilename = INDEX_NONE
    · simp [hE, hN]
    · by_cases hS : Files.FileSize ImageFilename > MAX_FILESIZE_BYTES
      · simp [hE, hN, hS]
      · cases hL : Files.LoadFileToArray ImageFilename <;> simp [hE, hN, hS, hL]
  · simp [hE]

/-- C11. For every path, when the size query of an existing file does not answer
`INDEX_NONE` (the `check` of line 390), `ImportFileAsImage` returns, and it stops
before the decode stage in exactly three cases: the file does not exist, its
size is above 999999999 bytes, or the read of the whole file fails.  Each case
writes its own message, which ends with the path, leaves the image as it was
and never calls `ImportBufferAsImage`; the size case makes no read call, and a
file of exactly 999999999 bytes is read.  The three messages are pairwise
distinct. -/
theorem C11_failures_before_decode (Files : FFileSystem) (Engine : FEngine)
    (ImageFilename : String) (OutImage : FRuntimeImageData) (OutError : String)
    (hCheck :
      Files.FileExists ImageFilename = true → Files.FileSize ImageFilename ≠ INDEX_NONE) :
    ∃ r, ImportFileAsImage Files Engine ImageFilename OutImage OutError = some r ∧
      ((∀ c ∈ r.Calls, c.IsDecode = false) ↔
        (Files.FileExists ImageFilename = false ∨ Files.FileSize ImageFilename > 999999999 ∨
          Files.LoadFileToArray ImageFilename = none)) ∧
      (Files.FileExists ImageFilename = false →
        r.OutError = "Image does not exist: " ++ ImageFilename ∧ r.OutImage = OutImage ∧
          r.Calls = [.FileExists]) ∧
      (Files.FileExists ImageFilename = true → Files.FileSize ImageFilename > 999999999 →
        r.OutError = "Image filesize > 999999999 MBs): " ++ ImageFilename ∧
          r.OutImage = OutImage ∧ r.Calls = [.FileExists, .FileSize]) ∧
      (Files.FileExists ImageFilename = true → Files.FileSize ImageFilename ≤ 999999999 →
        Files.LoadFileToArray ImageFilename = none →
        r.OutError = "Image I/O error: " ++ ImageFilename ∧ r.OutImage = OutImage ∧
          r.Calls = [.FileExists, .FileSize, .LoadFileToArray]) ∧
      (Files.FileExists ImageFilename = true → Files.FileSize ImageFilename = 999999999 →
        FFileCall.LoadFileToArray ∈ r.Calls) ∧
      ("Image does not exist: " ++ ImageFilename ≠
          "Image filesize > 999999999 MBs): " ++ ImageFilename ∧
        "Image does not exist: " ++ ImageFilename ≠ "Image I/O error: " ++ ImageFilename ∧
        "Image filesize > 999999999 MBs): " ++ ImageFilename ≠
          "Image I/O error: " ++ ImageFilename) := by
  unfold ImportFileAsImage
  by_cases hE : Files.FileExists ImageFilename = true
  · have hNe := hCheck hE
    by_cases hS : Files.FileSize ImageFilename > 999999999
    · refine ⟨_, by simp only [hE, hNe, hS, MAX_FILESIZE_BYTES, Bool.not_true,
        Bool.false_eq_true, if_false, if_true, size_message_eq]; rfl, ?_⟩
      simp [hE, hS, FFileCall.IsDecode, file_messages_distinct]
      constructor
      · simpa [MAX_FILESIZE_BYTES] using size_message_eq ImageFilename
      · omega
    · cases hL : Files.LoadFileToArray ImageFilename with
      | none =>
        refine ⟨_, by simp only [hE, hNe, hS, hL, MAX_FILESIZE_BYTES, Bool.not_true,
          Bool.false_eq_true, if_false]; rfl, ?_⟩
        simp [hE, hS, FFileCall.IsDecode, file_messages_distinct]
      | some Loaded =>
        refine ⟨_, by simp only [hE, hNe, hS, hL, MAX_FILESIZE_BYTES, Bool.not_true,
          Bool.false_eq_true, if_false]; rfl, ?_⟩
        simp [hE, hS, FFileCall.IsDecode, file_messages_distinct]
  · have hE' : Files.FileExists ImageFilename = false := by simpa using hE
    refine ⟨_, by simp only [hE', Bool.not_false, if_true]; rfl, ?_⟩
    simp [hE', FFileCall.IsDecode, file_messages_distinct]

/-- Witness of C11: a file of one byte above the limit. -/
theorem C11_failures_before_decode_witness :
    ImportFileAsImage (OneFile "a.png" 1000000000 (some [137, 80, 78, 71]) ⟨5, 9⟩)
        (WrapperEngine .PNG (SoundImage 4 4 8 .RGBA [1])) "a.png" BlankImage "" =
      some ⟨BlankImage, "Image filesize > 999999999 MBs): a.png", [.FileExists, .FileSize]⟩ := by
  obtain ⟨r, hr, -, -, h, -⟩ :=
    C11_failures_before_decode (OneFile "a.png" 1000000000 (some [137, 80, 78, 71]) ⟨5, 9⟩)
      (WrapperEngine .PNG (SoundImage 4 4 8 .RGBA [1])) "a.png" BlankImage "" (by decide)
  obtain ⟨h1, h2, h3⟩ := h (by decide) (by decide)
  rw [hr]
  cases r
  simp_all

theorem Then_WithTime (First : FFlow) (Next : FImportState → FFlow) (Time : Int)
    (hNext : ∀ s, Next (s.WithTime Time) = (Next s).WithTime Time) :
    (First.WithTime Time).Then Next = (First.Then Next).WithTime Time := by
  cases First <;> simp [FFlow.WithTime, FFlow.Then, hNext]

theorem Result_WithTime (Flow : FFlow) (Time : Int) :
    (Flow.WithTime Time).Result =
      ⟨Flow.Result.Value, WithModificationTime Flow.Result.OutImage Time, Flow.Result.OutError,
        Flow.Result.Calls⟩ := by
  cases Flow <;> rfl

theorem DecodePNG_WithTime (Engine : FEngine) (P : FLoadedImageWrapper)
    (s : FImportState) (Time : Int) :
    DecodePNG Engine P (s.WithTime Time) = (DecodePNG Engine P s).WithTime Time := by
  unfold DecodePNG
  simp only
  split_ifs
  · rfl
  · rfl
  · cases P.GetRaw (SelectPNG P.GetFormat P.GetBitDepth).Format
      (SelectPNG P.GetFormat P.GetBitDepth).BitDepth <;> rfl

theorem ImportPNG_WithTime (Engine : FEngine) (Buffer : List Nat) (Length : Int)
    (s : FImportState) (Time : Int) :
    ImportPNG Engine Buffer Length (s.WithTime Time) =
      (ImportPNG Engine Buffer Length s).WithTime Time := by
  cases hS : Sniff Engine .PNG Buffer Length with
  | none => rw [ImportPNG_of_sniff_none hS, ImportPNG_of_sniff_none hS]; rfl
  | some P =>
    rw [ImportPNG_of_sniff_some hS, ImportPNG_of_sniff_some hS]
    exact DecodePNG_WithTime Engine P (s.Call (.SetCompressed .PNG)) Time

theorem DecodeJPEG_WithTime (Engine : FEngine) (P : FLoadedImageWrapper)
    (s : FImportState) (Time : Int) :
    DecodeJPEG Engine P (s.WithTime Time) = (DecodeJPEG Engine P s).WithTime Time := by
  unfold DecodeJPEG
  simp only
  split_ifs
  · rfl
  · rfl
  · cases P.GetRaw (SelectJPEG P.GetFormat P.GetBitDepth).Format
      (SelectJPEG P.GetFormat P.GetBitDepth).BitDepth <;> rfl

theorem ImportJPEG_WithTime (Engine : FEngine) (Buffer : List Nat) (Length : Int)
    (s : FImportState) (Time : Int) :
    ImportJPEG Engine Buffer Length (s.WithTime Time) =
      (ImportJPEG Engine Buffer Length s).WithTime Time := by
  cases hS : Sniff Engine .JPEG Buffer Length with
  | none => rw [ImportJPEG_of_sniff_none hS, ImportJPEG_of_sniff_none hS]; rfl
  | some P =>
    rw [ImportJPEG_of_sniff_some hS, ImportJPEG_of_sniff_some hS]
    exact DecodeJPEG_WithTime Engine P (s.Call (.SetCompressed .JPEG)) Time

theorem DecodeBMP_WithTime (Engine : FEngine) (P : FLoadedImageWrapper)
    (s : FImportState) (Time : Int) :
    DecodeBMP Engine P (s.WithTime Time) = (DecodeBMP Engine P s).WithTime Time := by
  unfold DecodeBMP
  simp only
  split_ifs
  · rfl
  · cases P.GetRaw P.GetFormat P.GetBitDepth <;> rfl

theorem ImportBMP_WithTime (Engine : FEngine) (Buffer : List Nat) (Length : Int)
    (s : FImportState) (Time : Int) :
    ImportBMP Engine Buffer Length (s.WithTime Time) =
      (ImportBMP Engine Buffer Length s).WithTime Time := by
  cases hS : Sniff Engine .BMP Buffer Length with
  | none => rw [ImportBMP_of_sniff_none hS, ImportBMP_of_sniff_none hS]; rfl
  | some P =>
    rw [ImportBMP_of_sniff_some hS, ImportBMP_of_sniff_some hS]
    exact DecodeBMP_WithTime Engine P (s.Call (.SetCompressed .BMP)) Time

theorem DecodeEXR_WithTime (Engine : FEngine) (P : FLoadedImageWrapper)
    (s : FImportState) (Time : Int) :
    DecodeEXR Engine P (s.WithTime Time) = (DecodeEXR Engine P s).WithTime Time := by
  unfold DecodeEXR
  simp only
  split_ifs
  · rfl
  · rfl
  · cases P.GetRaw (SelectEXR P.GetFormat P.GetBitDepth).Format
      (SelectEXR P.GetFormat P.GetBitDepth).BitDepth <;> rfl

theorem ImportEXR_WithTime (Engine : FEngine) (Buffer : List Nat) (Length : Int)
    (s : FImportState) (Time : Int) :
    ImportEXR Engine Buffer Length (s.WithTime Time) =
      (ImportEXR Engine Buffer Length s).WithTime Time := by
  cases hS : Sniff Engine .EXR Buffer Length with
  | none => rw [ImportEXR_of_sniff_none hS, ImportEXR_of_sniff_none hS]; rfl
  | some P =>
    rw [ImportEXR_of_sniff_some hS, ImportEXR_of_sniff_some hS]
    exact DecodeEXR_WithTime Engine P (s.Call (.SetCompressed .EXR)) Time

theorem ImportTIFF_WithTime (Engine : FEngine) (Buffer : List Nat) (Length : Int)
    (s : FImportState) (Time : Int) :
    ImportTIFF Engine Buffer Length (s.WithTime Time) =
      (ImportTIFF Engine Buffer Length s).WithTime Time := by
  unfold ImportTIFF
  simp only
  split_ifs <;> rfl

theorem ImportTGA_WithTime (Engine : FEngine) (hTGA : DecompressTGAKeepsTime Engine)
    (Buffer : List Nat) (Length : Int) (s : FImportState) (Time : Int) :
    ImportTGA Engine Buffer Length (s.WithTime Time) =
      (ImportTGA Engine Buffer Length s).WithTime Time := by
  unfold ImportTGA DecodeTGA
  have h := hTGA Buffer s.OutImage s.OutError Time
  simp only [FImportState.WithTime, FImportState.Call, h]
  split_ifs <;> simp_all [FFlow.WithTime, FImportState.WithTime, WithModificationTime, SetGammaSpace]

/-- Run on an image with another modification time, `ImportBufferAsImage` does
the same, and the image it leaves differs in that field only. -/
theorem ImportBufferAsImage_WithTime (Engine : FEngine) (hTGA : DecompressTGAKeepsTime Engine)
    (Buffer : List Nat) (Length : Int) (OutImage : FRuntimeImageData) (OutError : String)
    (Time : Int) :
    ImportBufferAsImage Engine Buffer Length (WithModificationTime OutImage Time) OutError =
      ⟨(ImportBufferAsImage Engine Buffer Length OutImage OutError).Value,
        WithModificationTime (ImportBufferAsImage Engine Buffer Length OutImage OutError).OutImage
          Time,
        (ImportBufferAsImage Engine Buffer Length OutImage OutError).OutError,
        (ImportBufferAsImage Engine Buffer Length OutImage OutError).Calls⟩ := by
  unfold ImportBufferAsImage
  rw [← Result_WithTime]
  congr 1
  have h0 :
      (⟨WithModificationTime OutImage Time, OutError, []⟩ : FImportState) =
        (⟨OutImage, OutError, []⟩ : FImportState).WithTime Time := rfl
  rw [h0, ImportPNG_WithTime]
  apply Then_WithTime
  intro s
  rw [ImportJPEG_WithTime]
  apply Then_WithTime
  intro s
  rw [ImportBMP_WithTime]
  apply Then_WithTime
  intro s
  rw [ImportTGA_WithTime Engine hTGA]
  apply Then_WithTime
  intro s
  rw [ImportEXR_WithTime]
  apply Then_WithTime
  intro s
  exact ImportTIFF_WithTime Engine Buffer Length s Time

/-- C12. For every existing file whose size is at most 999999999 bytes (and is not
`INDEX_NONE`) and whose contents `B` are read successfully, `ImportFileAsImage`
calls `ImportBufferAsImage` on `B` followed by the terminator with the length
of `B`; the error it leaves is the one of that call on the same image, the image
it leaves is the one of that call with the modification time set to the later
of the creation and modification times of the file, and `ImportBufferAsImage`
leaves the modification time of every image as it was.  The TGA decompressor,
a helper outside the translated sources, is taken not to touch that field. -/
theorem C12_file_import_refines_buffer_import (Files : FFileSystem) (Engine : FEngine)
    (ImageFilename : String) (OutImage : FRuntimeImageData) (OutError : String) (B : List Nat)
    (hExists : Files.FileExists ImageFilename = true)
    (hCheck : Files.FileSize ImageFilename ≠ INDEX_NONE)
    (hSize : Files.FileSize ImageFilename ≤ 999999999)
    (hLoad : Files.LoadFileToArray ImageFilename = some B)
    (hTGA : DecompressTGAKeepsTime Engine) :
    ∃ r, ImportFileAsImage Files Engine ImageFilename OutImage OutError = some r ∧
      r.OutError = (ImportBufferAsImage Engine (B ++ [0]) B.length OutImage OutError).OutError ∧
      r.OutImage =
        WithModificationTime
          (ImportBufferAsImage Engine (B ++ [0]) B.length OutImage OutError).OutImage
          (max (Files.GetStatData ImageFilename).CreationTime
            (Files.GetStatData ImageFilename).ModificationTime) ∧
      r.OutImage.ModificationTime =
        max (Files.GetStatData ImageFilename).CreationTime
          (Files.GetStatData ImageFilename).ModificationTime ∧
      r.Calls =
        [.FileExists, .FileSize, .LoadFileToArray, .GetStatData,
          .ImportBufferAsImage (B ++ [0]) B.length] ∧
      (∀ (Buffer : List Nat) (Length : Int) (Image : FRuntimeImageData) (Error : String),
        (ImportBufferAsImage Engine Buffer Length Image Error).OutImage.ModificationTime =
          Image.ModificationTime) := by
  have hLen : (((B ++ [0]).length : Int) - 1) = (B.length : Int) := by
    simp
  have hKeep :
      ∀ (Buffer : List Nat) (Length : Int) (Image : FRuntimeImageData) (Error : String),
        (ImportBufferAsImage Engine Buffer Length Image Error).OutImage.ModificationTime =
          Image.ModificationTime := by
    intro Buffer Length Image Error
    have h := ImportBufferAsImage_WithTime Engine hTGA Buffer Length Image Error
      Image.ModificationTime
    have hI : WithModificationTime Image Image.ModificationTime = Image := rfl
    rw [hI] at h
    have h2 := congrArg (fun r => r.OutImage.ModificationTime) h
    simpa [WithModificationTime] using h2
  have hS : ¬Files.FileSize ImageFilename > MAX_FILESIZE_BYTES := by
    simp only [MAX_FILESIZE_BYTES]
    omega
  have hW :=
    ImportBufferAsImage_WithTime Engine hTGA (B ++ [0]) B.length OutImage OutError
      (max (Files.GetStatData ImageFilename).CreationTime
        (Files.GetStatData ImageFilename).ModificationTime)
  unfold WithModificationTime at hW
  refine ⟨_, by
    unfold ImportFileAsImage
    simp only [hExists, hCheck, hS, hLoad, hLen, Bool.not_true, Bool.false_eq_true, if_false, hW]
    rfl, rfl, rfl, rfl, rfl, hKeep⟩

/-- Witness of C12: a PNG file of four bytes, created at tick 5 and modified at
tick 9. -/
theorem C12_file_import_refines_buffer_import_witness :
    ∃ r,
      ImportFileAsImage (OneFile "a.png" 4 (some [137, 80, 78, 71]) ⟨5, 9⟩)
          (WrapperEngine .PNG (SoundImage 4 4 8 .RGBA [1])) "a.png" BlankImage "" = some r ∧
        r.OutImage.ModificationTime = 9 ∧
        r.Calls =
          [.FileExists, .FileSize, .LoadFileToArray, .GetStatData,
            .ImportBufferAsImage [137, 80, 78, 71, 0] 4] := by
  obtain ⟨r, hr, -, -, hT, hC, -⟩ :=
    C12_file_import_refines_buffer_import (OneFile "a.png" 4 (some [137, 80, 78, 71]) ⟨5, 9⟩)
      (WrapperEngine .PNG (SoundImage 4 4 8 .RGBA [1])) "a.png" BlankImage ""
      [137, 80, 78, 71] (by decide) (by decide) (by decide) (by decide)
      (by intro _ _ _ _; rfl)
  exact ⟨r, hr, hT, hC⟩

end FRuntimeImageUtils

/-! ## The percent size of `FTransformImageParams` -/

/-- C13. For all integers `PercentSizeX` and `PercentSizeY`, `IsPercentSizeValid`
is true if and only if both lie strictly between 0 and 100; so it is false as
soon as one of them lies outside, in particular for `PercentSizeX = 100`, it is
true for (50, 50) and false for the default parameters (100, 100). -/
theorem C13_percent_size_valid (Params : FTransformImageParams) :
    (Params.IsPercentSizeValid = true ↔
        (0 < Params.PercentSizeX ∧ Params.PercentSizeX < 100) ∧
          (0 < Params.PercentSizeY ∧ Params.PercentSizeY < 100)) ∧
      (¬(0 < Params.PercentSizeX ∧ Params.PercentSizeX < 100) ∨
          ¬(0 < Params.PercentSizeY ∧ Params.PercentSizeY < 100) →
        Params.IsPercentSizeValid = false) ∧
      (Params.PercentSizeX = 100 → Params.IsPercentSizeValid = false) ∧
      ({ Params with PercentSizeX := 50, PercentSizeY := 50 } :
        FTransformImageParams).IsPercentSizeValid = true ∧
      ({} : FTransformImageParams).IsPercentSizeValid = false := by
  have hiff :
      Params.IsPercentSizeValid = true ↔
        (0 < Params.PercentSizeX ∧ Params.PercentSizeX < 100) ∧
          (0 < Params.PercentSizeY ∧ Params.PercentSizeY < 100) := by
    simp [FTransformImageParams.IsPercentSizeValid, and_assoc]
  refine ⟨hiff, ?_, ?_, ?_, ?_⟩
  · intro h
    rw [← Bool.not_eq_true, hiff]
    tauto
  · intro h
    rw [← Bool.not_eq_true, hiff]
    omega
  · simp [FTransformImageParams.IsPercentSizeValid]
  · decide

/-- Witness of C13: 100 percent in X with 50 percent in Y, and 0 percent in Y. -/
theorem C13_percent_size_valid_witness :
    ({ PercentSizeX := 100, PercentSizeY := 50 } : FTransformImageParams).IsPercentSizeValid
        = false ∧
      ({ PercentSizeX := 50, PercentSizeY := 0 } : FTransformImageParams).IsPercentSizeValid
        = false :=
  ⟨(C13_percent_size_valid { PercentSizeX := 100, PercentSizeY := 50 }).2.2.1 rfl,
    (C13_percent_size_valid { PercentSizeX := 50, PercentSizeY := 0 }).2.1
      (Or.inr (by decide))⟩

namespace URuntimeImageReader

/-! ## The request queue -/

theorem WorkerStep_keeps {ProcessRequest : FImageReadRequest → FImageReadResult}
    {s s' : FReaderState} (h : WorkerStep ProcessRequest s = some s') :
    s'.Results ++ (Outstanding s').map ProcessRequest =
        s.Results ++ (Outstanding s).map ProcessRequest ∧
      2 * s'.Requests.length + s'.Processing.toList.length + 1 =
        2 * s.Requests.length + s.Processing.toList.length := by
  obtain ⟨Requests, Processing, Results⟩ := s
  cases Processing with
  | some r =>
    simp only [WorkerStep, Option.some.injEq] at h
    subst h
    simp [Outstanding]
  | none =>
    cases Requests with
    | nil => simp [WorkerStep] at h
    | cons r Rest =>
      simp only [WorkerStep, Option.some.injEq] at h
      subst h
      simp [Outstanding]
      omega

theorem WorkerStep_none {ProcessRequest : FImageReadRequest → FImageReadResult}
    {s : FReaderState} (h : WorkerStep ProcessRequest s = none) :
    IsWorkCompleted s = true ∧ Outstanding s = [] := by
  obtain ⟨Requests, Processing, Results⟩ := s
  cases Processing with
  | some r => simp [WorkerStep] at h
  | none =>
    cases Requests with
    | nil => simp [IsWorkCompleted, Outstanding]
    | cons r Rest => simp [WorkerStep] at h

/-- With enough fuel the worker loop comes to rest with the work completed and
a result for every outstanding request, oldest first. -/
theorem WorkerRun_completes (ProcessRequest : FImageReadRequest → FImageReadResult) :
    ∀ (Fuel : Nat) (s : FReaderState),
      2 * s.Requests.length + s.Processing.toList.length ≤ Fuel →
      IsWorkCompleted (WorkerRun ProcessRequest Fuel s) = true ∧
        (WorkerRun ProcessRequest Fuel s).Results =
          s.Results ++ (Outstanding s).map ProcessRequest := by
  intro Fuel
  induction Fuel with
  | zero =>
    intro s h
    obtain ⟨Requests, Processing, Results⟩ := s
    have h1 : Requests = [] := by
      cases Requests with
      | nil => rfl
      | cons r Rest => simp at h
    have h2 : Processing = none := by
      cases Processing with
      | none => rfl
      | some r => simp at h
    subst h1 h2
    simp [WorkerRun, IsWorkCompleted, Outstanding]
  | succ Fuel ih =>
    intro s h
    cases hStep : WorkerStep ProcessRequest s with
    | none =>
      obtain ⟨hDone, hOut⟩ := WorkerStep_none hStep
      simp [WorkerRun, hStep, hDone, hOut]
    | some s' =>
      obtain ⟨hKeep, hMeasure⟩ := WorkerStep_keeps hStep
      obtain ⟨hDone, hRes⟩ := ih s' (by omega)
      simp only [WorkerRun, hStep]
      exact ⟨hDone, by rw [hRes, hKeep]⟩

/-- Along every schedule, the results together with the results still to come
are those of the requests submitted, in submission order. -/
theorem Run_keeps (ProcessRequest : FImageReadRequest → FImageReadResult) :
    ∀ (Schedule : List FReaderEvent) (s : FReaderState),
      (Run ProcessRequest s Schedule).Results ++
          (Outstanding (Run ProcessRequest s Schedule)).map ProcessRequest =
        s.Results ++ (Outstanding s ++ Submitted Schedule).map ProcessRequest := by
  intro Schedule
  induction Schedule with
  | nil =>
    intro s
    simp [Run, Submitted]
  | cons e Rest ih =>
    intro s
    have hRun : Run ProcessRequest s (e :: Rest) =
        Run ProcessRequest (Step ProcessRequest s e) Rest := rfl
    rw [hRun, ih]
    cases e with
    | AddRequest r =>
      simp [Step, AddRequest, Outstanding, Submitted]
    | Worker =>
      cases hStep : WorkerStep ProcessRequest s with
      | none => simp [Step, hStep, Submitted]
      | some s' =>
        have hKeep := (WorkerStep_keeps hStep).1
        simp only [Step, hStep, Option.getD_some, Submitted, List.map_append] at hKeep ⊢
        rw [← List.append_assoc, hKeep, List.append_assoc]

/-- C16. For every schedule that interleaves the asynchronous submissions of the
producers with the steps of the single worker, once
`BlockTillAllRequestsFinished` has returned the work is completed and the
result store holds exactly one result for each submitted request, in submission
order. -/
theorem C16_results_in_submission_order
    (ProcessRequest : FImageReadRequest → FImageReadResult) (Schedule : List FReaderEvent) :
    IsWorkCompleted
        (BlockTillAllRequestsFinished ProcessRequest (Run ProcessRequest Initial Schedule))
        = true ∧
      (BlockTillAllRequestsFinished ProcessRequest
          (Run ProcessRequest Initial Schedule)).Results =
        (Submitted Schedule).map ProcessRequest ∧
      (BlockTillAllRequestsFinished ProcessRequest
          (Run ProcessRequest Initial Schedule)).Results.length =
        (Submitted Schedule).length := by
  have hFuel :
      2 * (Run ProcessRequest Initial Schedule).Requests.length +
          (Run ProcessRequest Initial Schedule).Processing.toList.length ≤
        2 * (Run ProcessRequest Initial Schedule).Requests.length + 1 := by
    cases (Run ProcessRequest Initial Schedule).Processing <;> simp
  obtain ⟨hDone, hRes⟩ :=
    WorkerRun_completes ProcessRequest _ (Run ProcessRequest Initial Schedule) hFuel
  have hKeep := Run_keeps ProcessRequest Schedule Initial
  have hAll :
      (BlockTillAllRequestsFinished ProcessRequest
          (Run ProcessRequest Initial Schedule)).Results =
        (Submitted Schedule).map ProcessRequest := by
    unfold BlockTillAllRequestsFinished
    rw [hRes, hKeep]
    simp [Initial, Outstanding]
  exact ⟨hDone, hAll, by rw [hAll, List.length_map]⟩

end URuntimeImageReader

namespace URuntimeGifReader

/-! ## The GIF reader -/

/-- The second half of `ProcessRequest` on a non-empty buffer, for a reader
whose error is still empty. -/
theorem DecodeBuffer_spec (Services : FGifServices) (ImageBuffer : List Nat)
    (ReadResult : FGifReadResult) (hNew : ReadResult.OutError = "")
    (hBuffer : ImageBuffer.length > 0) :
    ∃ r, DecodeBuffer Services ImageBuffer ReadResult = some r ∧
      (r.OutError = "" → IsValid r.OutTexture = true) ∧
      (r.OutError ≠ "" ↔
        (Services.DecodeGIF ImageBuffer = false ∨
          IsValid
              (Services.Create (Services.GetWidth ImageBuffer) (Services.GetHeight ImageBuffer))
            = false)) := by
  obtain ⟨OutTexture, OutError⟩ := ReadResult
  simp only at hNew
  subst hNew
  unfold DecodeBuffer
  by_cases hD : Services.DecodeGIF ImageBuffer = true
  · cases hC :
        Services.Create (Services.GetWidth ImageBuffer) (Services.GetHeight ImageBuffer) with
    | none => simp [hBuffer, hD, hC, IsValid]
    | some Texture =>
      by_cases hV : Texture.bIsValidObject = true
      · simp [hBuffer, hD, hC, IsValid, hV]
      · simp [hBuffer, hD, hC, IsValid, hV]
  · simp [hBuffer, hD]

/-- C14. For every GIF request with a non-empty file name or non-empty bytes, on a
reader whose error is still empty, `ProcessRequest` returns, and afterwards
exactly one of the two outcomes holds: `OutError` is non-empty, or `OutTexture`
is a valid texture and `OutError` is empty.  The error is non-empty exactly
when the read, the decoding or the creation of the texture failed, and
`OnPostProcessRequest` broadcasts `OnSuccess` with the texture if `OutError` is
empty and `OnFail` with the error otherwise. -/
theorem C14_exactly_one_outcome (Services : FGifServices) (Request : FGifReadRequest)
    (ReadResult : FGifReadResult)
    (hNew : ReadResult.OutError = "")
    (hRequest :
      Request.InputGif.ImageFilename.length > 0 ∨ Request.InputGif.ImageBytes.length > 0) :
    ∃ r, ProcessRequest Services Request ReadResult = some r ∧
      ((r.OutError ≠ "" ∧ ¬(IsValid r.OutTexture = true ∧ r.OutError = "")) ∨
        (¬r.OutError ≠ "" ∧ (IsValid r.OutTexture = true ∧ r.OutError = ""))) ∧
      (r.OutError ≠ "" ↔
        (InputBuffer Services Request = [] ∨
          Services.DecodeGIF (InputBuffer Services Request) = false ∨
          IsValid
              (Services.Create (Services.GetWidth (InputBuffer Services Request))
                (Services.GetHeight (InputBuffer Services Request))) = false)) ∧
      (r.OutError = "" → OnPostProcessRequest r = .OnSuccess r.OutTexture) ∧
      (r.OutError ≠ "" → OnPostProcessRequest r = .OnFail r.OutError) := by
  have hPost :
      ∀ r : FGifReadResult,
        (r.OutError = "" → OnPostProcessRequest r = .OnSuccess r.OutTexture) ∧
          (r.OutError ≠ "" → OnPostProcessRequest r = .OnFail r.OutError) := by
    intro r
    unfold OnPostProcessRequest
    constructor <;> intro h <;> simp [h]
  have hOne :
      ∀ r : FGifReadResult, (r.OutError = "" → IsValid r.OutTexture = true) →
        ((r.OutError ≠ "" ∧ ¬(IsValid r.OutTexture = true ∧ r.OutError = "")) ∨
          (¬r.OutError ≠ "" ∧ (IsValid r.OutTexture = true ∧ r.OutError = ""))) := by
    intro r h
    by_cases hE : r.OutError = ""
    · exact Or.inr ⟨by simp [hE], h hE, hE⟩
    · exact Or.inl ⟨hE, fun hh => hE hh.2⟩
  by_cases hF : Request.InputGif.ImageFilename.length > 0
  · by_cases hEmpty : (Services.ReadImage Request.InputGif.ImageFilename).length = 0
    · have hNil : Services.ReadImage Request.InputGif.ImageFilename = [] :=
        List.length_eq_zero.mp hEmpty
      refine ⟨_, by simp only [ProcessRequest, hF, hEmpty, if_true]; rfl, ?_, ?_, hPost _⟩
      · exact hOne _ (by simp)
      · simp [InputBuffer, hF, hNil]
    · have hPos : (Services.ReadImage Request.InputGif.ImageFilename).length > 0 := by omega
      have hNe : Services.ReadImage Request.InputGif.ImageFilename ≠ [] := by
        intro h
        rw [h] at hEmpty
        exact hEmpty rfl
      obtain ⟨r, hr, hValid, hErr⟩ := DecodeBuffer_spec Services _ ReadResult hNew hPos
      refine ⟨r, by simp only [ProcessRequest, hF, hEmpty, if_true, if_false]; exact hr,
        hOne r hValid, ?_, hPost r⟩
      simp only [InputBuffer, hF, if_true, hNe, false_or]
      exact hErr
  · have hB : Request.InputGif.ImageBytes.length > 0 := by
      rcases hRequest with h | h
      · exact absurd h hF
      · exact h
    have hNe : Request.InputGif.ImageBytes ≠ [] := by
      intro h
      rw [h] at hB
      simp at hB
    obtain ⟨r, hr, hValid, hErr⟩ := DecodeBuffer_spec Services _ ReadResult hNew hB
    refine ⟨r, by simp only [ProcessRequest, hF, hB, if_true, if_false]; exact hr,
      hOne r hValid, ?_, hPost r⟩
    simp only [InputBuffer, hF, if_false, hNe, false_or]
    exact hErr

/-- Witness of C14: a GIF file that is read, decoded and turned into a texture. -/
theorem C14_exactly_one_outcome_witness :
    ∃ r, ProcessRequest ExampleServices { InputGif := { ImageFilename := "a.gif" } } {} = some r ∧
      r.OutError = "" ∧ IsValid r.OutTexture = true ∧
      OnPostProcessRequest r = .OnSuccess r.OutTexture := by
  obtain ⟨r, hr, hOne, hErr, hS, -⟩ :=
    C14_exactly_one_outcome ExampleServices { InputGif := { ImageFilename := "a.gif" } } {} rfl
      (Or.inl (by decide))
  have hE : r.OutError = "" := by
    by_contra hNe
    have h := hErr.mp hNe
    revert h
    decide
  rcases hOne with ⟨h1, -⟩ | ⟨-, h2, -⟩
  · exact absurd hE h1
  · exact ⟨r, hr, hE, h2, hS hE⟩

/-- C15, evaluated: `LoadGIF` with the empty file name and `LoadGIFFromBytes` with
the empty array submit their request as it is; `ProcessRequest` takes neither
branch, the buffer stays empty and `check (ImageBuffer.Num() > 0)` fails,
whatever the services, the filter and the threads are. -/
theorem C15_empty_request_reaches_the_check (Services : FGifServices)
    (InFilterMode : TextureFilter) (bSynchronous bIsCallerGameThread : Bool) :
    LoadGIF Services "" InFilterMode bSynchronous bIsCallerGameThread = none ∧
      LoadGIFFromBytes Services [] InFilterMode bSynchronous bIsCallerGameThread = none ∧
      ProcessRequest Services { InputGif := { ImageFilename := "", ImageBytes := [] } } {}
        = none := by
  have h :
      ProcessRequest Services { InputGif := { ImageFilename := "", ImageBytes := [] } } {}
        = none := by
    simp [ProcessRequest, DecodeBuffer]
  refine ⟨?_, ?_, h⟩
  · unfold LoadGIF SubmitRequest
    simp only [h]
    split_ifs <;> rfl
  · unfold LoadGIFFromBytes SubmitRequest
    simp only [h]
    split_ifs <;> rfl

end URuntimeGifReader
